import Mathlib

/-!
# Verification of the study-plan workflow engine

A shallow embedding of the `plan-estudio` repository: the shared graph
state (`src/state.py`), the decision functions (`src/nodes/decision_nodes.py`),
the planning, book-search and validation nodes
(`src/nodes/planning_nodes.py`, `src/nodes/book_search_nodes.py`,
`src/nodes/validation_nodes.py`), and the text-extraction utilities
(`src/utils/web_search.py`).

Modelling conventions:
* Python dicts (insertion-ordered) are association lists `List (String × α)`
  with first-match lookup, in-place update and ordered key iteration.
* Python floats are idealised as exact rationals `ℚ`; the derived book
  score, which uses the transcendental `math.log`, lives in `ℝ`.
* Each node that calls the LLM collaborator takes the collaborator's
  response as an explicit parameter (`Option …`, `none` = the `try` block
  raised); everything after the call is translated from the source.
* Text that Python splits on `'\n'` is modelled at the granularity of the
  resulting list of lines.
* Console printing, file output and prompt construction (inputs to the
  external collaborator) have no effect on the graph state and are omitted.
-/

/-! ## Python string primitives -/

/-- The characters Python's `str.strip()` removes (`\x20\t\n\r\x0b\x0c`). -/
def pySpace (c : Char) : Bool :=
  c = ' ' || c = '\t' || c = '\n' || c = '\r' || c = '\x0b' || c = '\x0c'

/-- Python `str.strip()` on the underlying character list. -/
def stripData (cs : List Char) : List Char :=
  ((cs.dropWhile pySpace).reverse.dropWhile pySpace).reverse

/-- Python `str.strip()`. -/
def pyStrip (s : String) : String := ⟨stripData s.data⟩

/-- Python `str.lower()` (ASCII-faithful). -/
def pyLower (s : String) : String := ⟨s.data.map Char.toLower⟩

/-- Python `needle in haystack` on character lists: substring containment. -/
def containsSub (needle : List Char) : List Char → Bool
  | [] => needle.isPrefixOf []
  | c :: t => needle.isPrefixOf (c :: t) || containsSub needle t

/-- Python `haystack.__contains__(needle)` at `String` level. -/
def pyContains (haystack needle : String) : Bool :=
  containsSub needle.data haystack.data

/-- Python `s.startswith(p)`. -/
def pyStartsWith (p s : String) : Bool := p.data.isPrefixOf s.data

/-- Fuel-driven worker for `removeAllData`; the fuel is an upper bound on
the number of characters still to be consumed, so structural recursion on
it keeps the definition kernel-reducible. -/
def removeAllAux (old : List Char) : ℕ → List Char → List Char
  | 0, s => s
  | fuel + 1, s =>
    if !old.isEmpty && old.isPrefixOf s then
      removeAllAux old fuel (s.drop old.length)
    else
      match s with
      | [] => []
      | c :: t => c :: removeAllAux old fuel t

/-- Python `s.replace(old, '')` (left-to-right, non-overlapping removal of
every occurrence; the sources only call `replace` with nonempty `old` and
empty replacement). -/
def removeAllData (old : List Char) (s : List Char) : List Char :=
  removeAllAux old s.length s

/-- Python `s.replace(old, '')` at `String` level. -/
def pyRemoveAll (old s : String) : String := ⟨removeAllData old.data s.data⟩

/-- Python `s[:n]` on strings (first `n` characters). -/
def pyTake (n : ℕ) (s : String) : String := ⟨s.data.take n⟩

/-- Python `s[-n:]` on lists: the last `n` elements (fewer when shorter). -/
def lastN (n : ℕ) (l : List α) : List α := l.drop (l.length - n)

/-- Python `s.split(sep, 1)` restricted to what the sources need: `none`
when the separator character does not occur (Python's one-element result),
otherwise the text before and after its first occurrence. -/
def splitOnce (sep : Char) : List Char → Option (List Char × List Char)
  | [] => none
  | c :: t =>
    if c = sep then some ([], t)
    else (splitOnce sep t).map (fun p => (c :: p.1, p.2))

/-- Natural-number value of a list of decimal digits (`int(...)` on a
digits-only string). -/
def natOfDigits : List Char → ℕ :=
  List.foldl (fun acc c => 10 * acc + (c.toNat - '0'.toNat)) 0

/-- Python `float(...)` on a string matching `\d+\.?\d*` : integer part, optional
dot, optional fractional digits, as an exact rational. -/
def decOfDigits (cs : List Char) : ℚ :=
  let intPart := cs.takeWhile Char.isDigit
  let rest := cs.dropWhile Char.isDigit
  let frac := match rest with
    | '.' :: t => t.takeWhile Char.isDigit
    | _ => []
  (natOfDigits intPart : ℚ) + (natOfDigits frac : ℚ) / (10 : ℚ) ^ frac.length

/-! ## Regex scanners used by the sources

Each Python regex that the claims exercise is modelled by a dedicated
character-list scanner with the same matching semantics (leftmost match,
greedy quantifiers; none of the modelled patterns needs backtracking
because every quantified class is disjoint from what follows it). -/

/-- Python `\w` (ASCII fragment): letters, digits, underscore. -/
def isWordChar (c : Char) : Bool := c.isAlphanum || c = '_'

/-- One attempt of `\b(19|20)\d{2}\b` at the current position (`prev` is
the character before the position, `none` at the start of the string). -/
def yearAt (prev : Option Char) : List Char → Option (List Char)
  | c0 :: c1 :: c2 :: c3 :: rest =>
    if ((c0 == '1' && c1 == '9') || (c0 == '2' && c1 == '0')) &&
        c2.isDigit && c3.isDigit &&
        (match prev with | none => true | some p => !isWordChar p) &&
        (match rest with | [] => true | r :: _ => !isWordChar r) then
      some [c0, c1, c2, c3]
    else none
  | _ => none

/-- Model of `re.search(r'\b(19|20)\d{2}\b', ·)`: leftmost match. -/
def findYear (prev : Option Char) : List Char → Option (List Char)
  | [] => none
  | c :: t => (yearAt prev (c :: t)).orElse (fun _ => findYear (some c) t)

/-- Model of `re.search(r'(\d+\.?\d*)', ·)`: leftmost decimal-numeral match. -/
def findDecimal : List Char → Option (List Char)
  | [] => none
  | c :: t =>
    if c.isDigit then
      let d1 := (c :: t).takeWhile Char.isDigit
      match (c :: t).dropWhile Char.isDigit with
      | '.' :: r2 => some (d1 ++ '.' :: r2.takeWhile Char.isDigit)
      | _ => some d1
    else findDecimal t

/-- Model of `re.search(r'(\d+)', ·)`: leftmost maximal digit run. -/
def findNat : List Char → Option (List Char)
  | [] => none
  | c :: t =>
    if c.isDigit then some ((c :: t).takeWhile Char.isDigit)
    else findNat t

/-- Case-insensitive literal match: `pat` (given in lowercase) against a
prefix of `cs`; returns the remainder on success. -/
def ciLiteral : List Char → List Char → Option (List Char)
  | [], cs => some cs
  | _ :: _, [] => none
  | p :: ps, c :: cs => if c.toLower = p then ciLiteral ps cs else none

/-! ## Workflow limits (`src/state.py`) -/

def MAX_BOOK_SEARCHES_PER_STAGE : ℕ := 3
def MAX_VALIDATION_CYCLES : ℕ := 5
def MAX_PLAN_REFINEMENTS : ℕ := 2
def MIN_BOOKS_PER_STAGE : ℕ := 2
def QUALITY_THRESHOLD : ℚ := 4.0

/-! ## Data model (`src/state.py`) -/

/-- Source `BookInfo`: a finalized book record.  `rating` is the idealised float
rating, `score` the stored weighted score (a real number, because the
source computes it with `math.log`). -/
structure BookInfo where
  title : String
  author : String
  year : Option String
  rating : ℚ
  num_reviews : ℕ
  reason : String
  score : ℝ

/-- Source `StageInfo`: one stage of the study plan. -/
structure StageInfo where
  description : String
  duration : String
  prerequisites : List String
  objectives : List String
deriving Repr, DecidableEq

/-- A partially-filled book dict as built by `parse_books_from_text`:
each Python dict key becomes an `Option` field (`none` = key absent).  A
present `year` key itself holds an optional string, hence the nesting. -/
structure RawBook where
  title : Option String := none
  author : Option String := none
  year : Option (Option String) := none
  rating : Option ℚ := none
  num_reviews : Option ℕ := none
  reason : Option String := none
deriving Repr, DecidableEq

/-- Source `GraphState`: the shared mutable state (`class GraphState(TypedDict)`).
Python dicts become insertion-ordered association lists.  The private
`_skip_auto_save` key used by the output nodes is modelled as a plain
field defaulting to `false` (Python reads it with `.get(…, False)`). -/
structure GraphState where
  topic : String
  user_level : String
  knowledge_gaps : List String
  study_plan_structure : List (String × StageInfo)
  books_by_stage : List (String × List BookInfo)
  book_candidates : List (String × List BookInfo)
  book_search_iterations : ℕ
  validation_iterations : ℕ
  plan_refinement_iterations : ℕ
  quality_threshold : ℚ
  stage_being_processed : Option String
  all_stages_covered : Bool
  final_output : String
  validation_feedback : List String
  skip_auto_save : Bool := false

/-- Python `d.get(k)` / `d[k]` on an insertion-ordered dict. -/
def dictGet (d : List (String × α)) (k : String) : Option α :=
  (d.find? (fun p => p.1 == k)).map (fun p => p.2)

/-- Python `d[k] = v`: replace in place if the key exists (dict keys are
unique), else append in insertion order. -/
def dictSet : List (String × α) → String → α → List (String × α)
  | [], k, v => [(k, v)]
  | p :: t, k, v => if p.1 == k then (k, v) :: t else p :: dictSet t k v

/-- Python `del d[k]` (guarded by `k in d` in the sources, so deleting an
absent key is simply the identity). -/
def dictDel (d : List (String × α)) (k : String) : List (String × α) :=
  d.filter (fun p => p.1 != k)

/-- The books currently assigned to a stage:
`state.get("books_by_stage", {}).get(stage, [])`. -/
def booksFor (s : GraphState) (stage : String) : List BookInfo :=
  (dictGet s.books_by_stage stage).getD []

/-- Source `initialize_state` (`src/graph.py`). -/
def initialize_state (topic : String) (user_level : String) : GraphState where
  topic := topic
  user_level := user_level
  knowledge_gaps := []
  study_plan_structure := []
  books_by_stage := []
  book_candidates := []
  book_search_iterations := 0
  validation_iterations := 0
  plan_refinement_iterations := 0
  quality_threshold := QUALITY_THRESHOLD
  stage_being_processed := none
  all_stages_covered := false
  final_output := ""
  validation_feedback := []

/-! ## Decision functions (`src/nodes/decision_nodes.py`) -/

/-- Source `decision_busqueda_libros`: route after gap detection.  `if not stage`
covers both an unset stage and the empty string (Python truthiness). -/
def decision_busqueda_libros (s : GraphState) : String :=
  match s.stage_being_processed with
  | none => "libros_suficientes"
  | some stage =>
    if stage = "" then "libros_suficientes"
    else
      let iterations := s.book_search_iterations
      let books := booksFor s stage
      let gaps := s.knowledge_gaps
      if iterations ≥ MAX_BOOK_SEARCHES_PER_STAGE then "aceptar_libros_actuales"
      else if books.length < MIN_BOOKS_PER_STAGE then "reintentar_busqueda"
      else
        let stage_related_gaps := gaps.filter (fun g =>
          pyContains (pyLower g) (pyLower stage) || pyContains (pyLower g) "need")
        if stage_related_gaps ≠ [] ∧ iterations < MAX_BOOK_SEARCHES_PER_STAGE - 1 then
          "busqueda_especifica"
        else "libros_suficientes"

/-- Source `decision_cobertura_etapas`: returns the routing label and the state
with `all_stages_covered` updated. -/
def decision_cobertura_etapas (s : GraphState) : String × GraphState :=
  let uncovered_stages := (s.study_plan_structure.map Prod.fst).filter
    (fun stage_name => (booksFor s stage_name).length < MIN_BOOKS_PER_STAGE)
  if uncovered_stages ≠ [] then
    ("siguiente_etapa", { s with all_stages_covered := false })
  else
    ("validacion_global", { s with all_stages_covered := true })

/-- The critical-problem markers scanned for in recent feedback. -/
def criticalWords : List String := ["critical", "major issue", "low quality"]

/-- Source `decision_validacion`: route after global validation. -/
def decision_validacion (s : GraphState) : String :=
  let validation_iterations := s.validation_iterations
  let refinement_iterations := s.plan_refinement_iterations
  let feedback := s.validation_feedback
  if validation_iterations ≥ MAX_VALIDATION_CYCLES then "forzar_salida"
  else
    let recent_feedback := lastN 3 feedback
    let critical_issues := recent_feedback.any (fun fb =>
      criticalWords.any (fun word => pyContains (pyLower fb) word))
    if critical_issues ∧ refinement_iterations < MAX_PLAN_REFINEMENTS then
      "replantear"
    else
      let insufficient_stages := (s.study_plan_structure.map Prod.fst).filter
        (fun stage_name => (booksFor s stage_name).length < MIN_BOOKS_PER_STAGE)
      if insufficient_stages ≠ [] ∧ refinement_iterations < MAX_PLAN_REFINEMENTS then
        "replantear"
      else "formatear"

/-- Source `should_continue_or_end` (defined but unused by the graph). -/
def should_continue_or_end (s : GraphState) : String :=
  if s.final_output ≠ "" then "end" else "continue"

/-! ## Stage parsing and planning nodes (`src/nodes/planning_nodes.py`) -/

/-- Model of `re.match(r'^(Stage|Phase)\s+([1-7]):\s*(.+)', line, IGNORECASE)`,
returning group 3.  The parser only ever applies it to stripped lines, for
which leftover text after `\s*` can never be all-whitespace, so dropping
whitespace greedily before requiring a nonempty remainder is exact. -/
def matchStageHeader (line : String) : Option String :=
  let cs := line.data
  match (ciLiteral "stage".data cs).orElse (fun _ => ciLiteral "phase".data cs) with
  | none => none
  | some r0 =>
    match r0 with
    | [] => none
    | c :: _ =>
      if pySpace c then
        match r0.dropWhile pySpace with
        | d :: ':' :: r2 =>
          if '1' ≤ d ∧ d ≤ '7' then
            let r3 := r2.dropWhile pySpace
            if r3 ≠ [] then some ⟨r3⟩ else none
          else none
        | _ => none
      else none

/-- Python `s.split(',')` on character lists. -/
def splitCommas : List Char → List (List Char)
  | [] => [[]]
  | c :: t =>
    if c = ',' then [] :: splitCommas t
    else
      match splitCommas t with
      | h :: r => (c :: h) :: r
      | [] => [[c]]

/-- The character set of `line.lstrip('-•* 0123456789.')`. -/
def isObjectiveBullet (c : Char) : Bool :=
  c = '-' || c = '•' || c = '*' || c = ' ' || c.isDigit || c = '.'

/-- Accumulator of `parse_stages_from_text`: stages collected so far, the
stage under construction (name × fields) and the pending objectives list. -/
structure StageParseAcc where
  stages : List (String × StageInfo)
  cur : Option (String × StageInfo)
  objectives : List String

/-- Saving the stage under construction (`stages[current_stage_name] =
current_stage` guarded by `if current_stage_name and current_stage`). -/
def stageFlush (acc : StageParseAcc) : List (String × StageInfo) :=
  match acc.cur with
  | some (name, st) =>
    if name ≠ "" then dictSet acc.stages name { st with objectives := acc.objectives }
    else acc.stages
  | none => acc.stages

/-- One iteration of the line loop of `parse_stages_from_text`. -/
def stageStep (acc : StageParseAcc) (rawLine : String) : StageParseAcc :=
  let line := pyStrip rawLine
  if line = "" then acc
  else
    match matchStageHeader line with
    | some g3 =>
      { stages := stageFlush acc
        cur := some (pyStrip g3, ⟨"", "4 weeks", [], []⟩)
        objectives := [] }
    | none =>
      match acc.cur with
      | none => acc
      | some (name, st) =>
        if name = "" then acc
        else
          let low := pyLower line
          if pyContains low "duration" || pyContains low "time" then
            match splitOnce ':' line.data with
            | some (_, after) =>
              { acc with cur := some (name, { st with duration := pyStrip ⟨after⟩ }) }
            | none => acc
          else if pyContains low "prerequisite" then
            match splitOnce ':' line.data with
            | some (_, after) =>
              { acc with cur := some (name,
                  { st with prerequisites := (splitCommas after).map (fun p => pyStrip ⟨p⟩) }) }
            | none => acc
          else if pyContains low "objective" || pyContains low "goal" then acc
          else if pyStartsWith "-" line || pyStartsWith "•" line || pyStartsWith "*" line ||
              (match line.data with | c :: _ => c.isDigit | [] => false) then
            { acc with objectives := acc.objectives ++ [⟨line.data.dropWhile isObjectiveBullet⟩] }
          else if pyContains low "description" then
            match splitOnce ':' line.data with
            | some (_, after) =>
              { acc with cur := some (name, { st with description := pyStrip ⟨after⟩ }) }
            | none => acc
          else if st.description = "" then
            { acc with cur := some (name, { st with description := line }) }
          else acc

/-- Main scan of `parse_stages_from_text`, before the default fallback. -/
def parse_stages_raw (lines : List String) : List (String × StageInfo) :=
  stageFlush (lines.foldl stageStep ⟨[], none, []⟩)

/-- Source `create_default_stages`. -/
def create_default_stages (topic level : String) : List (String × StageInfo) :=
  if level = "beginner" then
    [ ("Fundamentals of " ++ topic,
        ⟨"Introduction to basic concepts of " ++ topic, "4 weeks", ["None"],
         ["Understand core concepts", "Build foundation"]⟩),
      ("Intermediate " ++ topic,
        ⟨"Deeper dive into " ++ topic ++ " topics", "6 weeks", ["Fundamentals"],
         ["Apply concepts", "Solve intermediate problems"]⟩),
      ("Advanced " ++ topic,
        ⟨"Advanced topics and applications in " ++ topic, "8 weeks",
         ["Intermediate knowledge"],
         ["Master advanced concepts", "Complete projects"]⟩) ]
  else
    [ ("Core " ++ topic,
        ⟨"Essential concepts in " ++ topic, "6 weeks", ["Basic knowledge"],
         ["Consolidate understanding"]⟩),
      ("Advanced " ++ topic,
        ⟨"Advanced and specialized topics", "8 weeks", ["Core knowledge"],
         ["Expert-level mastery"]⟩) ]

/-- Source `parse_stages_from_text` (the response text already split into
lines): the structured scan, falling back to the default plan when it
parses nothing. -/
def parse_stages_from_lines (lines : List String) (topic level : String) :
    List (String × StageInfo) :=
  let stages := parse_stages_raw lines
  if stages = [] then create_default_stages topic level else stages

/-- Source `estructurador_plan`.  The collaborator response is passed as
its list of lines; `none` models an exception raised by the `llm.invoke`
call (the remainder of the `try` block is pure and cannot raise).  The
`if "books_by_stage" not in state` initialisation is a no-op here because
the field always exists in the typed state. -/
def estructurador_plan (s : GraphState) (response : Option (List String)) : GraphState :=
  match response with
  | some lines =>
    { s with
      study_plan_structure := parse_stages_from_lines lines s.topic s.user_level
      plan_refinement_iterations := s.plan_refinement_iterations + 1 }
  | none =>
    { s with
      study_plan_structure := create_default_stages s.topic s.user_level
      plan_refinement_iterations := 1 }

/-- Source `selector_etapa`: select the first stage with fewer than 2
books; reset the book-search counter only when the selection changed. -/
def selector_etapa (s : GraphState) : GraphState :=
  let previous_stage := s.stage_being_processed
  let next_stage := (s.study_plan_structure.map Prod.fst).find? (fun stage_name =>
    match dictGet s.books_by_stage stage_name with
    | none => true
    | some books => books.length < 2)
  match next_stage with
  | some stage =>
    let s' := if some stage ≠ previous_stage then { s with book_search_iterations := 0 } else s
    { s' with stage_being_processed := some stage }
  | none =>
    { s with stage_being_processed := none, all_stages_covered := true }

/-- Source `replanificador`.  The parameter is the collaborator's
recommendation text (`none` = the `llm.invoke` call raised).  On success
the node increments the refinement counter, logs a feedback line, clears
`all_stages_covered` and deletes the book lists of stages holding fewer
than 2 books (the cleanup loop reads the evolving dict, modelled by the
fold). -/
def replanificador (s : GraphState) (response : Option String) : GraphState :=
  match response with
  | some recommendations =>
    let n := s.plan_refinement_iterations + 1
    let cleaned := (s.study_plan_structure.map Prod.fst).foldl
      (fun bks stage =>
        if ((dictGet bks stage).getD []).length < 2 then dictDel bks stage else bks)
      s.books_by_stage
    { s with
      plan_refinement_iterations := n
      validation_feedback := s.validation_feedback ++
        ["Replanificación #" ++ toString n ++ ": " ++ pyTake 100 recommendations]
      all_stages_covered := false
      books_by_stage := cleaned }
  | none =>
    { s with plan_refinement_iterations := s.plan_refinement_iterations + 1 }

/-! ## Book search nodes (`src/nodes/book_search_nodes.py`) -/

/-- The weighted score `rating * math.log(max(num_reviews, 1) + 1)`. -/
noncomputable def scoreOf (rating : ℚ) (num_reviews : ℕ) : ℝ :=
  (rating : ℝ) * Real.log ((max num_reviews 1 : ℕ) + 1)

/-- Conversion of one parsed candidate dict into a `BookInfo` record, as
performed inside the loop of `investigador_libros` (`book.get` defaults
included). -/
noncomputable def mkBookInfo (book : RawBook) : BookInfo :=
  let rating := book.rating.getD 0
  let num_reviews := book.num_reviews.getD 1
  { title := book.title.getD ""
    author := book.author.getD "Unknown"
    year := book.year.getD none
    rating := rating
    num_reviews := num_reviews
    reason := book.reason.getD "Recommended for this topic"
    score := scoreOf rating num_reviews }

/-- Source `investigador_libros`.  `searchResult` is the candidate list
returned by `search_books_for_topic` (`none` = the `try` block raised).
Candidates without a truthy title are discarded; the search counter is
incremented on both paths. -/
noncomputable def investigador_libros (s : GraphState)
    (searchResult : Option (List RawBook)) : GraphState :=
  match s.stage_being_processed with
  | none => s
  | some stage =>
    if stage = "" then s
    else
      let iterations := s.book_search_iterations
      match searchResult with
      | some books_found =>
        let book_candidates := (books_found.filter
          (fun b => b.title.getD "" != "")).map mkBookInfo
        { s with
          book_candidates := dictSet s.book_candidates stage book_candidates
          book_search_iterations := iterations + 1 }
      | none =>
        { s with
          book_candidates := dictSet s.book_candidates stage []
          book_search_iterations := iterations + 1 }

/-- Source `validate_book_quality` (`src/utils/web_search.py`): the
book's rating meets the threshold. -/
def validate_book_quality (book : BookInfo) (quality_threshold : ℚ) : Bool :=
  quality_threshold ≤ book.rating

/-- The filtering steps of `validador_calidad` (lines 146–154): filter by
threshold, and refilter once at `threshold - 0.3` when fewer than
`MIN_BOOKS_PER_STAGE` books survive and the threshold exceeds 3.5. -/
def filtrar_calidad (candidates : List BookInfo) (threshold : ℚ) : List BookInfo :=
  let quality_books := candidates.filter (fun b => validate_book_quality b threshold)
  if quality_books.length < MIN_BOOKS_PER_STAGE ∧ (3.5 : ℚ) < threshold then
    candidates.filter (fun b => validate_book_quality b (threshold - 0.3))
  else quality_books

/-- Source `validador_calidad`: filter the current stage's candidates,
sort the survivors by score (stable, descending) and keep the top 5. -/
noncomputable def validador_calidad (s : GraphState) : GraphState :=
  match s.stage_being_processed with
  | none => s
  | some stage =>
    if stage = "" then s
    else
      let threshold := s.quality_threshold
      let candidates := (dictGet s.book_candidates stage).getD []
      let quality_books := filtrar_calidad candidates threshold
      let sorted := quality_books.mergeSort (fun a b => decide (b.score ≤ a.score))
      { s with books_by_stage := dictSet s.books_by_stage stage (sorted.take 5) }

/-- Gap message 1 of `detector_gaps` (insufficient books). -/
def gapMsgInsufficient (stage : String) (n : ℕ) : String :=
  "La etapa \x27" ++ stage ++ "\x27 necesita más libros (actualmente " ++ toString n ++ ")"

/-- Gap message 2 of `detector_gaps` (low ratings). -/
def gapMsgLowRated (stage : String) : String :=
  "Algunos libros en \x27" ++ stage ++ "\x27 tienen calificaciones bajas"

/-- Gap message 3 of `detector_gaps` (too few reviews). -/
def gapMsgLowReviews (stage : String) : String :=
  "Muchos libros en \x27" ++ stage ++ "\x27 carecen de suficientes reseñas"

/-- Source `detector_gaps`: append a descriptive gap for each detected
problem of the selected stage's finalized books. -/
def detector_gaps (s : GraphState) : GraphState :=
  match s.stage_being_processed with
  | none => s
  | some stage =>
    if stage = "" then s
    else
      let books := booksFor s stage
      let gaps := s.knowledge_gaps
      let new1 := if books.length < MIN_BOOKS_PER_STAGE then
        [gapMsgInsufficient stage books.length] else []
      let low_rated := books.filter (fun b => decide (b.rating < 3.8))
      let new2 := if low_rated.isEmpty then [] else [gapMsgLowRated stage]
      let low_reviews := books.filter (fun b => b.num_reviews < 50)
      let new3 := if low_reviews.length > books.length / 2 then
        [gapMsgLowReviews stage] else []
      let new_gaps := new1 ++ new2 ++ new3
      if new_gaps ≠ [] then { s with knowledge_gaps := gaps ++ new_gaps } else s

/-! ## Book text extraction (`src/utils/web_search.py`, `parse_books_from_text`) -/

/-- Python truthiness of a partially-filled book dict (`if current_book`):
at least one key present. -/
def rawNonEmpty (b : RawBook) : Bool :=
  b.title.isSome || b.author.isSome || b.year.isSome || b.rating.isSome ||
    b.num_reviews.isSome || b.reason.isSome

/-- Accumulator of the structured pass: finished books and the dict under
construction (`none` = the empty dict). -/
structure BookParseAcc where
  books : List RawBook
  cur : Option RawBook

/-- One iteration of the structured (`Field: Value`) line loop of
`parse_books_from_text`.  A dict under construction always holds a title
(it is created by a `Title:` line), matching the source's flush guard
`'title' in current_book`. -/
def bookStep (acc : BookParseAcc) (rawLine : String) : BookParseAcc :=
  let line := pyStrip rawLine
  if pyStartsWith "Title:" line then
    let books := match acc.cur with
      | some cb => if cb.title.isSome then acc.books ++ [cb] else acc.books
      | none => acc.books
    { books := books, cur := some { title := some (pyStrip (pyRemoveAll "Title:" line)) } }
  else
    match acc.cur with
    | none => acc
    | some cb =>
      if pyStartsWith "Author:" line then
        { acc with cur := some { cb with author := some (pyStrip (pyRemoveAll "Author:" line)) } }
      else if pyStartsWith "Year:" line then
        let year_text := pyStrip (pyRemoveAll "Year:" line)
        { acc with cur := some { cb with
            year := some ((findYear none year_text.data).map (fun g => (⟨g⟩ : String))) } }
      else if pyStartsWith "Rating:" line then
        let rating_text := pyStrip (pyRemoveAll "Rating:" line)
        { acc with cur := some { cb with
            rating := some (match findDecimal rating_text.data with
              | some g => decOfDigits g
              | none => 0) } }
      else if pyStartsWith "Reviews:" line then
        let reviews_text := pyStrip (pyRemoveAll "Reviews:" line)
        { acc with cur := some { cb with
            num_reviews := some (match findNat (reviews_text.data.filter (fun c => c ≠ ',')) with
              | some g => natOfDigits g
              | none => 0) } }
      else if pyStartsWith "Why:" line then
        { acc with cur := some { cb with reason := some (pyStrip (pyRemoveAll "Why:" line)) } }
      else if line = "---" then
        { books := if cb.title.isSome then acc.books ++ [cb] else acc.books, cur := none }
      else acc

/-- Model of `re.match(r'^[\d\*\-•]+[\.\):]?\s+', ·)`: a bullet/number
prefix followed by optional punctuation and whitespace. -/
def matchBulletStart (cs : List Char) : Bool :=
  let run := cs.takeWhile (fun c => c.isDigit || c = '*' || c = '-' || c = '•')
  if run.isEmpty then false
  else
    let rest := cs.drop run.length
    let rest2 := match rest with
      | c :: t => if c = '.' ∨ c = ')' ∨ c = ':' then t else rest
      | [] => rest
    match rest2 with
    | c :: _ => pySpace c
    | [] => false

/-- Shortest nonempty prefix of characters satisfying `ok` whose remainder
satisfies `stop`: the semantics of a lazy `+?` group followed by a
terminating alternative. -/
def lazyUntilStop (stop : List Char → Bool) (ok : Char → Bool) : List Char → Option (List Char)
  | [] => none
  | c :: t =>
    if ok c then
      if stop t then some [c]
      else (lazyUntilStop stop ok t).map (fun g => c :: g)
    else none

/-- Tail test `\s+by\s+` (case-insensitive) of the fallback title regex. -/
def wsByWs (cs : List Char) : Bool :=
  let w1 := cs.takeWhile pySpace
  if w1.isEmpty then false
  else
    match ciLiteral "by".data (cs.drop w1.length) with
    | some r => !(r.takeWhile pySpace).isEmpty
    | none => false

/-- One attempt of the fallback title regex
`["\']([^"\']+)["\']|[\d\*\-•]+[\.\):]?\s+([^:\n]+?)(?:\s+by\s+|$)`
at the current position. -/
def fbTitleAt (cs : List Char) : Option (List Char) :=
  let quoted : Option (List Char) :=
    match cs with
    | c :: t =>
      if c = '"' ∨ c = '\x27' then
        let content := t.takeWhile (fun x => x ≠ '"' ∧ x ≠ '\x27')
        if content ≠ [] then
          match t.drop content.length with
          | q :: _ => if q = '"' ∨ q = '\x27' then some content else none
          | [] => none
        else none
      else none
    | [] => none
  match quoted with
  | some g => some g
  | none =>
    let run := cs.takeWhile (fun c => c.isDigit || c = '*' || c = '-' || c = '•')
    if run.isEmpty then none
    else
      let rest := cs.drop run.length
      let rest2 := match rest with
        | c :: t => if c = '.' ∨ c = ')' ∨ c = ':' then t else rest
        | [] => rest
      let ws := rest2.takeWhile pySpace
      if ws.isEmpty then none
      else
        lazyUntilStop (fun rem => rem.isEmpty || wsByWs rem)
          (fun c => c ≠ ':' ∧ c ≠ '\n') (rest2.drop ws.length)

/-- Leftmost search with the fallback title regex. -/
def fbTitleSearch : List Char → Option (List Char)
  | [] => none
  | c :: t => (fbTitleAt (c :: t)).orElse (fun _ => fbTitleSearch t)

/-- Terminator `(?:\s*\(|\s*,|\s*$)` of the fallback author regex. -/
def fbAuthorStop (cs : List Char) : Bool :=
  match cs.dropWhile pySpace with
  | '(' :: _ => true
  | ',' :: _ => true
  | [] => true
  | _ => false

/-- One attempt of the fallback author regex
`(?:by|author[:\s]+)\s*([A-Z][^,\n\(\)]+?)(?:\s*\(|\s*,|\s*$)`
(case-insensitive, so the leading `[A-Z]` matches any ASCII letter). -/
def fbAuthorAt (cs : List Char) : Option (List Char) :=
  let afterIntro : Option (List Char) :=
    match ciLiteral "by".data cs with
    | some r => some r
    | none =>
      match ciLiteral "author".data cs with
      | some r =>
        let seps := r.takeWhile (fun c => c = ':' || pySpace c)
        if seps.isEmpty then none else some (r.drop seps.length)
      | none => none
  match afterIntro with
  | none => none
  | some r0 =>
    match r0.dropWhile pySpace with
    | c :: t =>
      if c.isAlpha then
        (lazyUntilStop fbAuthorStop
          (fun x => x ≠ ',' ∧ x ≠ '\n' ∧ x ≠ '(' ∧ x ≠ ')') t).map (fun g => c :: g)
      else none
    | [] => none

/-- Leftmost search with the fallback author regex. -/
def fbAuthorSearch : List Char → Option (List Char)
  | [] => none
  | c :: t => (fbAuthorAt (c :: t)).orElse (fun _ => fbAuthorSearch t)

/-- One attempt of the fallback rating regex
`(\d+\.?\d*)\s*(?:\/5|stars?|rating)` (case-insensitive). -/
def fbRatingAt (cs : List Char) : Option (List Char) :=
  match cs with
  | c :: _ =>
    if c.isDigit then
      let d1 := cs.takeWhile Char.isDigit
      let (numeral, rest) :=
        match cs.dropWhile Char.isDigit with
        | '.' :: r2 =>
          let d2 := r2.takeWhile Char.isDigit
          (d1 ++ '.' :: d2, r2.drop d2.length)
        | r => (d1, r)
      let tail := rest.dropWhile pySpace
      let unitOk :=
        (match tail with | '/' :: '5' :: _ => true | _ => false) ||
        (ciLiteral "star".data tail).isSome || (ciLiteral "rating".data tail).isSome
      if unitOk then some numeral else none
    else none
  | [] => none

/-- Leftmost search with the fallback rating regex. -/
def fbRatingSearch : List Char → Option (List Char)
  | [] => none
  | c :: t => (fbRatingAt (c :: t)).orElse (fun _ => fbRatingSearch t)

/-- One attempt of the fallback reviews regex
`([\d,]+)\s*(?:reviews?|ratings?)` (case-insensitive). -/
def fbReviewsAt (cs : List Char) : Option (List Char) :=
  let run := cs.takeWhile (fun c => c.isDigit || c = ',')
  if run.isEmpty then none
  else
    let tail := (cs.drop run.length).dropWhile pySpace
    if (ciLiteral "review".data tail).isSome || (ciLiteral "rating".data tail).isSome then
      some run
    else none

/-- Leftmost search with the fallback reviews regex. -/
def fbReviewsSearch : List Char → Option (List Char)
  | [] => none
  | c :: t => (fbReviewsAt (c :: t)).orElse (fun _ => fbReviewsSearch t)

/-- Accumulator of the fallback pass of `parse_books_from_text`. -/
structure FBAcc where
  books : List RawBook
  cur : RawBook
  started : Bool

/-- One iteration of the fallback line loop of `parse_books_from_text`. -/
def fbStep (acc : FBAcc) (rawLine : String) : FBAcc :=
  let line := pyStrip rawLine
  if line = "" then
    if rawNonEmpty acc.cur && acc.started then
      { books := acc.books ++ [acc.cur], cur := {}, started := false }
    else acc
  else
    let acc :=
      if matchBulletStart line.data then
        let books := if rawNonEmpty acc.cur && acc.started then acc.books ++ [acc.cur]
          else acc.books
        let cur : RawBook := {}
        let cur := match fbTitleSearch line.data with
          | some g => { cur with title := some (pyStrip ⟨g⟩) }
          | none => cur
        { books := books, cur := cur, started := true }
      else acc
    let acc :=
      if acc.started && (pyContains (pyLower line) "by" || pyContains (pyLower line) "author") then
        match fbAuthorSearch line.data with
        | some g => { acc with cur := { acc.cur with author := some (pyStrip ⟨g⟩) } }
        | none => acc
      else acc
    let acc :=
      if acc.started then
        match fbRatingSearch line.data with
        | some g => { acc with cur := { acc.cur with rating := some (decOfDigits g) } }
        | none => acc
      else acc
    let acc :=
      match fbReviewsSearch line.data with
      | some g =>
        if acc.started then
          let digits := g.filter (fun c => c ≠ ',')
          if digits ≠ [] then
            { acc with cur := { acc.cur with num_reviews := some (natOfDigits digits) } }
          else acc
        else acc
      | none => acc
    if acc.started && !(["title", "author", "rating", "year", "publication"].any
        (fun key => pyContains (pyLower line) key)) then
      match acc.cur.reason with
      | none => { acc with cur := { acc.cur with reason := some line } }
      | some r => { acc with cur := { acc.cur with reason := some (r ++ " " ++ line) } }
    else acc

/-- The fallback (heuristic) pass of `parse_books_from_text`. -/
def parse_books_fallback (lines : List String) : List RawBook :=
  let acc := lines.foldl fbStep ⟨[], {}, false⟩
  if rawNonEmpty acc.cur && acc.started then acc.books ++ [acc.cur] else acc.books

/-- Final default-filling loop of `parse_books_from_text` (`setdefault`
on every book holding a title; title-less books are kept untouched). -/
def applyDefaults (b : RawBook) : RawBook :=
  if b.title.isNone then b
  else
    { b with
      author := some (b.author.getD "Unknown")
      year := some (b.year.getD none)
      rating := some (b.rating.getD 0)
      num_reviews := some (b.num_reviews.getD 0)
      reason := some (b.reason.getD "Highly recommended resource") }

/-- Source `parse_books_from_text` (the text already split into lines):
the structured pass, the fallback pass when it found nothing, and the
default-filling loop. -/
def parse_books_from_lines (lines : List String) : List RawBook :=
  let acc := lines.foldl bookStep ⟨[], none⟩
  let books := match acc.cur with
    | some cb => if cb.title.isSome then acc.books ++ [cb] else acc.books
    | none => acc.books
  let books := if books.length = 0 then parse_books_fallback lines else books
  books.map applyDefaults

/-- Source `parse_books_from_text` on a raw string. -/
def parse_books_from_text (text : String) : List RawBook :=
  parse_books_from_lines (text.splitOn "\n")

/-! ## Analysis nodes (`src/nodes/analysis_nodes.py`) -/

/-- Source `analizador_tema`.  The collaborator's analysis text is the
parameter (`none` = the `llm.invoke` call raised, which assigns the three
default gaps). -/
def analizador_tema (s : GraphState) (response : Option String) : GraphState :=
  match response with
  | some analysis_text =>
    let gaps0 :=
      if pyContains (pyLower analysis_text) "gap" then
        ((analysis_text.splitOn "\n").filter (fun line =>
          pyContains (pyLower line) "gap" || pyContains (pyLower line) "lack" ||
            pyContains (pyLower line) "missing")).map pyStrip
      else []
    let gaps := if gaps0 = [] then ["Complete coverage of " ++ s.topic] else gaps0
    { s with
      knowledge_gaps := gaps
      validation_feedback := ["Análisis inicial: " ++ pyTake 200 analysis_text ++ "..."] }
  | none =>
    { s with knowledge_gaps :=
        ["Foundational " ++ s.topic, "Intermediate " ++ s.topic, "Advanced " ++ s.topic] }

/-- Source `evaluador_nivel`: normalise an invalid level to `beginner`
and filter the knowledge gaps by level. -/
def evaluador_nivel (s : GraphState) : GraphState :=
  let level0 := s.user_level
  let level :=
    if level0 = "" ∨ level0 ∉ ["beginner", "intermediate", "advanced"] then "beginner"
    else level0
  let s1 := { s with user_level := level }
  if level = "beginner" then s1
  else if level = "intermediate" then
    { s1 with knowledge_gaps := s1.knowledge_gaps.filter (fun g =>
        !pyContains (pyLower g) "foundational") }
  else
    { s1 with knowledge_gaps := s1.knowledge_gaps.filter (fun g =>
        pyContains (pyLower g) "advanced" || pyContains (pyLower g) "complex" ||
          pyContains (pyLower g) "expert") }

/-! ## Global validation and output nodes (`src/nodes/validation_nodes.py`) -/

/-- One attempt of `(\d+)/10|score[:\s]+(\d+)` (case-insensitive) at the
current position: branch 1 first, then branch 2, per regex alternation. -/
def scoreAt (cs : List Char) : Option ℕ :=
  let d := cs.takeWhile Char.isDigit
  let b1 : Option ℕ :=
    if d ≠ [] then
      match cs.drop d.length with
      | '/' :: '1' :: '0' :: _ => some (natOfDigits d)
      | _ => none
    else none
  match b1 with
  | some v => some v
  | none =>
    match ciLiteral "score".data cs with
    | none => none
    | some r0 =>
      let seps := r0.takeWhile (fun c => c = ':' || pySpace c)
      if seps.isEmpty then none
      else
        let d2 := (r0.drop seps.length).takeWhile Char.isDigit
        if d2 ≠ [] then some (natOfDigits d2) else none

/-- Leftmost search with the score regex of `validador_global`. -/
def searchScore : List Char → Option ℕ
  | [] => none
  | c :: t => (scoreAt (c :: t)).orElse (fun _ => searchScore t)

/-- Source `validador_global`.  The collaborator's validation text is the
parameter (`none` = the `llm.invoke` call raised). -/
def validador_global (s : GraphState) (response : Option String) : GraphState :=
  match response with
  | some validation_text =>
    let quality_score := (searchScore validation_text.data).getD 7
    let critical_issues :=
      (if pyContains (pyLower validation_text) "critical" ||
          pyContains (pyLower validation_text) "major issue" then
        ["Critical issues detected in plan structure"] else []) ++
      (if quality_score < 6 then
        ["Low quality score: " ++ toString quality_score ++ "/10"] else [])
    let vi := s.validation_iterations + 1
    { s with
      validation_iterations := vi
      validation_feedback := s.validation_feedback ++
        ["Validation " ++ toString vi ++ ": Score " ++ toString quality_score ++ "/10"] ++
        critical_issues }
  | none =>
    let vi := s.validation_iterations + 1
    { s with
      validation_iterations := vi
      validation_feedback := s.validation_feedback ++
        ["Validation " ++ toString vi ++ ": Completed with warnings"] }

/-- Python `c * n` for a repeated character (`"=" * 80` and friends). -/
def repChar (c : Char) (n : ℕ) : String := ⟨List.replicate n c⟩

/-- Python `str.upper()` (ASCII-faithful). -/
def pyUpper (s : String) : String := ⟨s.data.map Char.toUpper⟩

/-- Python `str.capitalize()`: first character upper, the rest lower. -/
def pyCapitalize (s : String) : String :=
  match s.data with
  | [] => ""
  | c :: t => ⟨c.toUpper :: t.map Char.toLower⟩

/-- Week count extracted from one duration string by `formateador_salida`
(first number, multiplied by 4 when the text mentions months). -/
def durationWeeks (duration : String) : ℕ :=
  match findNat duration.data with
  | some ds =>
    let weeks := natOfDigits ds
    if pyContains (pyLower duration) "month" then weeks * 4 else weeks
  | none => 0

/-- Python `f"{x:.1f}"` for the non-negative ratings the workflow stores,
idealised over exact rationals (nearest tenth, Mathlib's `round`). -/
def formatQ1 (q : ℚ) : String :=
  let n : ℕ := (round (q * 10) : ℤ).toNat
  toString (n / 10) ++ "." ++ toString (n % 10)

/-- Document lines for one book entry of `formateador_salida`. -/
def bookLines (j : ℕ) (book : BookInfo) : List String :=
  [ "  " ++ toString j ++ ". \"" ++ book.title ++ "\"",
    "     Autor: " ++ book.author ] ++
  (match book.year with
    | some y => if y ≠ "" then ["     Año: " ++ y] else []
    | none => []) ++
  [ "     Rating: " ++ formatQ1 book.rating ++ "/5.0 (" ++ toString book.num_reviews ++
      " reviews)",
    "     Por qué se recomienda: " ++ pyTake 150 book.reason,
    "" ]

/-- Document lines for one stage section of `formateador_salida`. -/
def stageSection (s : GraphState) (i : ℕ) (stage_name : String) (stage_info : StageInfo) :
    List String :=
  [ "\n\nETAPA " ++ toString i ++ ": " ++ stage_name,
    repChar '=' 80,
    "\nDescripción:",
    "  " ++ stage_info.description,
    "\nDuración estimada: " ++ stage_info.duration ] ++
  (if stage_info.prerequisites ≠ [] ∧ stage_info.prerequisites ≠ ["None"] then
    ["\nPrerrequisitos:"] ++ stage_info.prerequisites.map (fun p => "  - " ++ p)
  else []) ++
  (if stage_info.objectives ≠ [] then
    ["\nObjetivos de aprendizaje:"] ++ (stage_info.objectives.take 5).map (fun o => "  - " ++ o)
  else []) ++
  (let books := booksFor s stage_name
   if !books.isEmpty then
     ["\nLibros recomendados (" ++ toString books.length ++ "):", ""] ++
       (books.enumFrom 1).flatMap (fun p => bookLines p.1 p.2)
   else ["\n⚠ No se encontraron libros para esta etapa"]) ++
  [ repChar '-' 80 ]

/-- The full formatted document built by `formateador_salida` (file
output and timestamped filenames are external effects and are omitted). -/
def formatDocument (s : GraphState) : String :=
  let stages := s.study_plan_structure
  let total_weeks := stages.foldl (fun acc p => acc + durationWeeks p.2.duration) 0
  let header :=
    [ repChar '=' 80,
      "PLAN DE ESTUDIO: " ++ pyUpper s.topic,
      repChar '=' 80,
      "",
      "Nivel del estudiante: " ++ pyCapitalize s.user_level,
      "Total de etapas: " ++ toString stages.length,
      "",
      "Duración total estimada: " ++ toString total_weeks ++ " semanas (" ++
        toString (total_weeks / 4) ++ " meses)",
      "",
      repChar '-' 80,
      "\nROADMAP DE APRENDIZAJE",
      repChar '-' 80 ]
  let roadmap := (stages.enumFrom 1).flatMap (fun p =>
    [ "\n" ++ toString p.1 ++ ". " ++ p.2.1,
      "   Duración: " ++ p.2.2.duration,
      "   Recursos: " ++ toString (booksFor s p.2.1).length ++ " libros recomendados" ])
  let detail := (stages.enumFrom 1).flatMap (fun p => stageSection s p.1 p.2.1 p.2.2)
  let advice :=
    [ "\n\nCONSEJOS FINALES",
      repChar '=' 80,
      "- Sigue el orden de las etapas para un aprendizaje progresivo",
      "- Complementa los libros con práctica y proyectos",
      "- Ajusta el ritmo según tu disponibilidad de tiempo",
      "- Busca comunidades y foros para resolver dudas",
      "",
      "Plan generado con Gemini 2.5 Flash + Google Search",
      repChar '=' 80 ]
  String.intercalate "\n" (header ++ roadmap ++ ["\n" ++ repChar '=' 80] ++ detail ++ advice)

/-- Source `formateador_salida`: store the formatted document (writing
the `.txt` file is an external effect outside the graph state). -/
def formateador_salida (s : GraphState) : GraphState :=
  { s with final_output := formatDocument s }

/-- The warning banner prepended by `salida_forzada`. -/
def forcedDisclaimer : String :=
  "\n⚠⚠⚠ ADVERTENCIA ⚠⚠⚠\nEste plan fue generado con recursos limitados debido a que se alcanzaron\nlos límites máximos de búsqueda o validación. Algunas etapas pueden tener\nmenos libros de los recomendados.\n\nSe sugiere complementar con búsqueda manual de recursos adicionales.\n\n"

/-- Source `salida_forzada`: run the normal formatter with auto-saving
suppressed, restore the flag, and prepend the disclaimer. -/
def salida_forzada (s : GraphState) : GraphState :=
  let temp_flag := s.skip_auto_save
  let s1 := formateador_salida { s with skip_auto_save := true }
  let s2 := { s1 with skip_auto_save := temp_flag }
  { s2 with final_output := forcedDisclaimer ++ s2.final_output }

/-! ## Well-formedness predicates for the round-trip claim -/

/-- A string of shape `\d+\.?\d*` (a decimal numeral covering the whole
string): nonempty leading digits, optionally a dot and further digits. -/
def isDecimalShaped (cs : List Char) : Bool :=
  match cs with
  | [] => false
  | c :: _ =>
    c.isDigit &&
      (match cs.dropWhile Char.isDigit with
       | [] => true
       | d :: d2 => d == '.' && d2.all Char.isDigit)

/-- A four-character year `19xx`/`20xx`. -/
def isYearShaped (cs : List Char) : Bool :=
  match cs with
  | [c0, c1, c2, c3] =>
    ((c0 == '1' && c1 == '9') || (c0 == '2' && c1 == '0')) && c2.isDigit && c3.isDigit
  | _ => false

/-! ## General lemmas -/

theorem pySpace_of_isDigit {c : Char} (h : c.isDigit = true) : pySpace c = false := by
  by_contra hne
  have hsp : pySpace c = true := by
    cases hb : pySpace c with
    | false => exact absurd hb hne
    | true => rfl
  unfold pySpace at hsp
  simp only [Bool.or_eq_true, decide_eq_true_eq] at hsp
  rcases hsp with ((((h1 | h1) | h1) | h1) | h1) | h1 <;>
    (subst h1; exact absurd h (by decide))

theorem ne_comma_of_isDigit {c : Char} (h : c.isDigit = true) : c ≠ ',' := by
  intro hc
  subst hc
  exact absurd h (by decide)

theorem takeWhile_all_append (p : Char → Bool) (a b : List Char)
    (ha : ∀ c ∈ a, p c = true) :
    (a ++ b).takeWhile p = a ++ b.takeWhile p := by
  induction a with
  | nil => rfl
  | cons c t ih =>
    rw [List.cons_append, List.takeWhile_cons, if_pos (ha c (List.mem_cons_self c t)),
      ih (fun x hx => ha x (List.mem_cons_of_mem c hx)), List.cons_append]

theorem dropWhile_all_append (p : Char → Bool) (a b : List Char)
    (ha : ∀ c ∈ a, p c = true) :
    (a ++ b).dropWhile p = b.dropWhile p := by
  induction a with
  | nil => rfl
  | cons c t ih =>
    rw [List.cons_append, List.dropWhile_cons, if_pos (ha c (List.mem_cons_self c t)),
      ih (fun x hx => ha x (List.mem_cons_of_mem c hx))]

theorem takeWhile_all (p : Char → Bool) (a : List Char) (ha : ∀ c ∈ a, p c = true) :
    a.takeWhile p = a := by
  have := takeWhile_all_append p a [] ha
  simpa using this

theorem dropWhile_all (p : Char → Bool) (a : List Char) (ha : ∀ c ∈ a, p c = true) :
    a.dropWhile p = [] := by
  have := dropWhile_all_append p a [] ha
  simpa using this

theorem head_not_space_of_dropWhile_eq_self {c : Char} {t : List Char}
    (h : (c :: t).dropWhile pySpace = c :: t) : pySpace c = false := by
  by_contra hne
  have hc : pySpace c = true := by
    cases hb : pySpace c with
    | false => exact absurd hb hne
    | true => rfl
  rw [List.dropWhile_cons, if_pos hc] at h
  have hlen := congrArg List.length h
  have hle := (List.dropWhile_suffix (l := t) pySpace).length_le
  simp only [List.length_cons] at hlen
  omega

theorem dropWhile_eq_self_of_pyStrip {v : String} (h : pyStrip v = v) :
    v.data.dropWhile pySpace = v.data := by
  have hdata : stripData v.data = v.data := congrArg String.data h
  unfold stripData at hdata
  have hsuff : v.data.dropWhile pySpace <:+ v.data := List.dropWhile_suffix _
  refine hsuff.eq_of_length ?_
  have h1 := congrArg List.length hdata
  have h2 := ((v.data.dropWhile pySpace).reverse.dropWhile_suffix pySpace).length_le
  have h3 := hsuff.length_le
  simp only [List.length_reverse] at h1 h2
  omega

theorem revDropWhile_eq_self_of_pyStrip {v : String} (h : pyStrip v = v) :
    v.data.reverse.dropWhile pySpace = v.data.reverse := by
  have hdata : stripData v.data = v.data := congrArg String.data h
  unfold stripData at hdata
  rw [dropWhile_eq_self_of_pyStrip h] at hdata
  have := congrArg List.reverse hdata
  simpa using this

/-- Stripping a line of the form `marker ++ value` is the identity when
the marker starts with a non-space character and the value is nonempty
with a non-space final character. -/
theorem stripData_marker (m vd : List Char)
    (hm : m.dropWhile pySpace = m) (hmne : m ≠ [])
    (hlast : vd.reverse.dropWhile pySpace = vd.reverse) (hvne : vd ≠ []) :
    stripData (m ++ vd) = m ++ vd := by
  unfold stripData
  have hleft : (m ++ vd).dropWhile pySpace = m ++ vd := by
    cases m with
    | nil => exact absurd rfl hmne
    | cons c t =>
      have hc : pySpace c = false := head_not_space_of_dropWhile_eq_self hm
      rw [List.cons_append, List.dropWhile_cons, if_neg (by simp [hc])]
  rw [hleft, List.reverse_append]
  cases hvd : vd.reverse with
  | nil =>
    exact absurd (by simpa using congrArg List.reverse hvd) hvne
  | cons c t =>
    have hc : pySpace c = false := head_not_space_of_dropWhile_eq_self (hvd ▸ hlast)
    rw [List.cons_append, List.dropWhile_cons, if_neg (by simp [hc]), ← List.cons_append,
      ← hvd, ← List.reverse_append, List.reverse_reverse]

theorem removeAllAux_no_occ (old : List Char) :
    ∀ (fuel : ℕ) (s : List Char), s.length ≤ fuel → containsSub old s = false →
      removeAllAux old fuel s = s := by
  intro fuel
  induction fuel with
  | zero =>
    intro s hlen _
    cases s with
    | nil => rfl
    | cons c t => simp at hlen
  | succ n ih =>
    intro s hlen hno
    cases s with
    | nil =>
      have hpre : old.isPrefixOf ([] : List Char) = false := by
        unfold containsSub at hno; exact hno
      unfold removeAllAux
      rw [if_neg (by simp [hpre])]
    | cons c t =>
      have hpre : old.isPrefixOf (c :: t) = false := by
        unfold containsSub at hno
        exact (Bool.or_eq_false_iff.mp hno).1
      have hno' : containsSub old t = false := by
        unfold containsSub at hno
        exact (Bool.or_eq_false_iff.mp hno).2
      have hlen' : t.length ≤ n := by
        simp only [List.length_cons] at hlen
        omega
      unfold removeAllAux
      rw [if_neg (by simp [hpre])]
      show c :: removeAllAux old n t = c :: t
      rw [ih t hlen' hno']

/-- Removing every occurrence of a nonempty `old` from `old ++ rest`
leaves `rest` when `old` does not occur in `rest`. -/
theorem removeAllData_head (old rest : List Char) (hne : old ≠ [])
    (hno : containsSub old rest = false) :
    removeAllData old (old ++ rest) = rest := by
  unfold removeAllData
  have hold1 : 1 ≤ old.length := by
    cases old with
    | nil => exact absurd rfl hne
    | cons c t => simp
  cases hlen2 : (old ++ rest).length with
  | zero =>
    rw [List.length_append] at hlen2
    omega
  | succ n =>
    unfold removeAllAux
    rw [if_pos (by
      simp only [Bool.and_eq_true, Bool.not_eq_true']
      exact ⟨by simpa [List.isEmpty_iff] using hne,
        List.isPrefixOf_iff_prefix.mpr (List.prefix_append old rest)⟩)]
    rw [List.drop_left]
    apply removeAllAux_no_occ old n rest _ hno
    rw [List.length_append] at hlen2
    omega

/-- Value extraction of a structured field line: removing the marker from
`marker ++ " " ++ value` and stripping yields the value back. -/
theorem marker_line_value (mk : List Char) (v : String)
    (hmkne : mk ≠ [])
    (hpre : mk.isPrefixOf (' ' :: v.data) = false)
    (hno : containsSub mk v.data = false)
    (hv : pyStrip v = v) :
    pyStrip ⟨removeAllData mk (mk ++ ' ' :: v.data)⟩ = v := by
  have h1 : containsSub mk (' ' :: v.data) = false := by
    unfold containsSub
    rw [hpre, hno]
    rfl
  rw [removeAllData_head mk (' ' :: v.data) hmkne h1]
  show (⟨stripData (' ' :: v.data)⟩ : String) = v
  have hst : stripData (' ' :: v.data) = v.data := by
    unfold stripData
    rw [List.dropWhile_cons, if_pos (by decide), dropWhile_eq_self_of_pyStrip hv,
      revDropWhile_eq_self_of_pyStrip hv, List.reverse_reverse]
  rw [hst]

theorem data_ne_nil_of_ne_empty {v : String} (h : v ≠ "") : v.data ≠ [] := by
  intro hd
  apply h
  cases v with
  | mk l => cases hd; rfl

theorem dropWhile_eq_self_of_all (p : Char → Bool) (l : List Char)
    (h : ∀ c ∈ l, p c = false) : l.dropWhile p = l := by
  cases l with
  | nil => rfl
  | cons c t =>
    rw [List.dropWhile_cons, if_neg (by simp [h c (List.mem_cons_self c t)])]

theorem pyStrip_of_all_not_space {v : String} (h : ∀ c ∈ v.data, pySpace c = false) :
    pyStrip v = v := by
  show (⟨stripData v.data⟩ : String) = v
  unfold stripData
  rw [dropWhile_eq_self_of_all _ _ h,
    dropWhile_eq_self_of_all _ _ (fun c hc => h c (List.mem_reverse.mp hc)),
    List.reverse_reverse]

/-- Stripping a line of the form `marker ++ value` (here `mksp` is the
marker including its trailing space) is the identity. -/
theorem pyStrip_line (mksp v : String)
    (hm : mksp.data.dropWhile pySpace = mksp.data) (hmne : mksp.data ≠ [])
    (hv : pyStrip v = v) (hvne : v ≠ "") :
    pyStrip (mksp ++ v) = mksp ++ v := by
  show (⟨stripData (mksp ++ v).data⟩ : String) = mksp ++ v
  rw [String.data_append, stripData_marker mksp.data v.data hm hmne
    (revDropWhile_eq_self_of_pyStrip hv) (data_ne_nil_of_ne_empty hvne),
    ← String.data_append]

theorem containsSub_eq_false_of_not_mem {c : Char} {n : List Char} (hc : c ∈ n) :
    ∀ {h : List Char}, c ∉ h → containsSub n h = false := by
  intro h
  induction h with
  | nil =>
    intro _
    unfold containsSub
    cases hb : n.isPrefixOf [] with
    | false => rfl
    | true =>
      have : n = [] := by
        have := List.isPrefixOf_iff_prefix.mp hb
        simpa using this.eq_of_length (by simpa using this.length_le)
      subst this
      exact absurd hc (List.not_mem_nil c)
  | cons x t ih =>
    intro hnot
    unfold containsSub
    have h1 : n.isPrefixOf (x :: t) = false := by
      cases hb : n.isPrefixOf (x :: t) with
      | false => rfl
      | true =>
        exact absurd ((List.isPrefixOf_iff_prefix.mp hb).subset hc) hnot
    rw [h1, ih (fun hm => hnot (List.mem_cons_of_mem x hm))]
    rfl

theorem yearShaped_digits {cs : List Char} (h : isYearShaped cs = true) :
    ∀ c ∈ cs, c.isDigit = true := by
  rcases cs with _ | ⟨c0, _ | ⟨c1, _ | ⟨c2, _ | ⟨c3, _ | ⟨c4, t⟩⟩⟩⟩⟩
  · simp [isYearShaped] at h
  · simp [isYearShaped] at h
  · simp [isYearShaped] at h
  · simp [isYearShaped] at h
  · simp only [isYearShaped, Bool.and_eq_true, Bool.or_eq_true, beq_iff_eq] at h
    obtain ⟨⟨h01, h2⟩, h3⟩ := h
    intro c hc
    rcases List.mem_cons.mp hc with rfl | hc
    · rcases h01 with ⟨rfl, _⟩ | ⟨rfl, _⟩ <;> decide
    rcases List.mem_cons.mp hc with rfl | hc
    · rcases h01 with ⟨_, rfl⟩ | ⟨_, rfl⟩ <;> decide
    rcases List.mem_cons.mp hc with rfl | hc
    · exact h2
    rcases List.mem_cons.mp hc with rfl | hc
    · exact h3
    · exact absurd hc (List.not_mem_nil c)
  · simp [isYearShaped] at h

theorem decimalShaped_mem {cs : List Char} (h : isDecimalShaped cs = true) :
    ∀ c ∈ cs, c.isDigit = true ∨ c = '.' := by
  cases cs with
  | nil => simp [isDecimalShaped] at h
  | cons c0 t =>
    unfold isDecimalShaped at h
    simp only [Bool.and_eq_true] at h
    obtain ⟨hc0, hrest⟩ := h
    intro c hc
    rw [← List.takeWhile_append_dropWhile Char.isDigit (c0 :: t)] at hc
    rcases List.mem_append.mp hc with hm | hm
    · exact Or.inl (List.mem_takeWhile_imp hm)
    · cases hdrop : (c0 :: t).dropWhile Char.isDigit with
      | nil => rw [hdrop] at hm; exact absurd hm (List.not_mem_nil c)
      | cons d r =>
        rw [hdrop] at hrest hm
        simp only [Bool.and_eq_true, beq_iff_eq] at hrest
        obtain ⟨rfl, hall⟩ := hrest
        rcases List.mem_cons.mp hm with rfl | hm
        · exact Or.inr rfl
        · exact Or.inl ((List.all_eq_true.mp hall) c hm)

theorem findYear_shaped {cs : List Char} (h : isYearShaped cs = true) :
    findYear none cs = some cs := by
  rcases cs with _ | ⟨c0, _ | ⟨c1, _ | ⟨c2, _ | ⟨c3, _ | ⟨c4, t⟩⟩⟩⟩⟩
  · simp [isYearShaped] at h
  · simp [isYearShaped] at h
  · simp [isYearShaped] at h
  · simp [isYearShaped] at h
  · have h' : (((c0 == '1' && c1 == '9') || (c0 == '2' && c1 == '0')) &&
        c2.isDigit && c3.isDigit) = true := h
    unfold findYear
    show (yearAt none [c0, c1, c2, c3]).orElse _ = _
    unfold yearAt
    dsimp only
    rw [if_pos (by
      simp only [Bool.and_true]
      exact h')]
    rfl
  · simp [isYearShaped] at h

theorem findDecimal_shaped {cs : List Char} (h : isDecimalShaped cs = true) :
    findDecimal cs = some cs := by
  cases cs with
  | nil => simp [isDecimalShaped] at h
  | cons c0 t =>
    unfold isDecimalShaped at h
    simp only [Bool.and_eq_true] at h
    obtain ⟨hc0, hrest⟩ := h
    unfold findDecimal
    rw [if_pos hc0]
    have hsplit := List.takeWhile_append_dropWhile Char.isDigit (c0 :: t)
    cases hdrop : (c0 :: t).dropWhile Char.isDigit with
    | nil =>
      rw [hdrop, List.append_nil] at hsplit
      dsimp only
      rw [hsplit]
    | cons d r =>
      rw [hdrop] at hrest hsplit
      simp only [Bool.and_eq_true, beq_iff_eq] at hrest
      obtain ⟨rfl, hall⟩ := hrest
      show some ((c0 :: t).takeWhile Char.isDigit ++
          '.' :: r.takeWhile Char.isDigit) = some (c0 :: t)
      rw [takeWhile_all Char.isDigit r (List.all_eq_true.mp hall), hsplit]

theorem findNat_all_digits {cs : List Char} (hne : cs ≠ []) (h : cs.all Char.isDigit = true) :
    findNat cs = some cs := by
  cases cs with
  | nil => exact absurd rfl hne
  | cons c t =>
    unfold findNat
    rw [if_pos ((List.all_eq_true.mp h) c (List.mem_cons_self c t))]
    rw [takeWhile_all Char.isDigit (c :: t) (List.all_eq_true.mp h)]

theorem filter_ne_comma_of_digits {cs : List Char} (h : cs.all Char.isDigit = true) :
    cs.filter (fun c => c ≠ ',') = cs := by
  rw [List.filter_eq_self]
  intro a ha
  simpa using ne_comma_of_isDigit ((List.all_eq_true.mp h) a ha)

/-! ## Structured-pass line lemmas -/

theorem ne_true_of_false {b : Bool} (h : b = false) : ¬(b = true) := by
  simp [h]

/-- Structured-pass step on a `Title:` line with no dict under
construction: a new dict holding the stripped value is opened. -/
theorem bookStep_title (bs : List RawBook) (v : String)
    (hv : pyStrip v = v) (hvne : v ≠ "")
    (hno : containsSub "Title:".data v.data = false) :
    bookStep ⟨bs, none⟩ ("Title: " ++ v) = ⟨bs, some { title := some v }⟩ := by
  have hline : pyStrip ("Title: " ++ v) = "Title: " ++ v :=
    pyStrip_line "Title: " v (by decide) (by decide) hv hvne
  have hval : pyStrip (pyRemoveAll "Title:" ("Title: " ++ v)) = v :=
    marker_line_value "Title:".data v (by decide) rfl hno hv
  unfold bookStep
  dsimp only
  rw [hline]
  rw [if_pos (show pyStartsWith "Title:" ("Title: " ++ v) = true from rfl)]
  rw [hval]

/-- Structured-pass step on an `Author:` line while a dict is under
construction. -/
theorem bookStep_author (bs : List RawBook) (cb : RawBook) (v : String)
    (hv : pyStrip v = v) (hvne : v ≠ "")
    (hno : containsSub "Author:".data v.data = false) :
    bookStep ⟨bs, some cb⟩ ("Author: " ++ v) =
      ⟨bs, some { cb with author := some v }⟩ := by
  have hline : pyStrip ("Author: " ++ v) = "Author: " ++ v :=
    pyStrip_line "Author: " v (by decide) (by decide) hv hvne
  have hval : pyStrip (pyRemoveAll "Author:" ("Author: " ++ v)) = v :=
    marker_line_value "Author:".data v (by decide) rfl hno hv
  unfold bookStep
  dsimp only
  rw [hline]
  rw [if_neg (ne_true_of_false
    (show pyStartsWith "Title:" ("Author: " ++ v) = false from rfl))]
  rw [if_pos (show pyStartsWith "Author:" ("Author: " ++ v) = true from rfl)]
  rw [hval]

/-- Structured-pass step on a `Year:` line whose value is a literal year. -/
theorem bookStep_year (bs : List RawBook) (cb : RawBook) (v : String)
    (hy : isYearShaped v.data = true) :
    bookStep ⟨bs, some cb⟩ ("Year: " ++ v) =
      ⟨bs, some { cb with year := some (some v) }⟩ := by
  have hdig : ∀ c ∈ v.data, c.isDigit = true := yearShaped_digits hy
  have hv : pyStrip v = v :=
    pyStrip_of_all_not_space (fun c hc => pySpace_of_isDigit (hdig c hc))
  have hvne : v ≠ "" := by
    intro h
    subst h
    exact absurd hy (by decide)
  have hno : containsSub "Year:".data v.data = false :=
    containsSub_eq_false_of_not_mem (c := 'Y') (by decide)
      (fun hm => absurd (hdig 'Y' hm) (by decide))
  have hline : pyStrip ("Year: " ++ v) = "Year: " ++ v :=
    pyStrip_line "Year: " v (by decide) (by decide) hv hvne
  have hval : pyStrip (pyRemoveAll "Year:" ("Year: " ++ v)) = v :=
    marker_line_value "Year:".data v (by decide) rfl hno hv
  unfold bookStep
  dsimp only
  rw [hline]
  rw [if_neg (ne_true_of_false
    (show pyStartsWith "Title:" ("Year: " ++ v) = false from rfl))]
  rw [if_neg (ne_true_of_false
    (show pyStartsWith "Author:" ("Year: " ++ v) = false from rfl))]
  rw [if_pos (show pyStartsWith "Year:" ("Year: " ++ v) = true from rfl)]
  rw [hval, findYear_shaped hy]
  rfl

/-- Structured-pass step on a `Rating:` line whose value is a literal
decimal numeral. -/
theorem bookStep_rating (bs : List RawBook) (cb : RawBook) (v : String)
    (hr : isDecimalShaped v.data = true) :
    bookStep ⟨bs, some cb⟩ ("Rating: " ++ v) =
      ⟨bs, some { cb with rating := some (decOfDigits v.data) }⟩ := by
  have hmem : ∀ c ∈ v.data, c.isDigit = true ∨ c = '.' := decimalShaped_mem hr
  have hv : pyStrip v = v := pyStrip_of_all_not_space (fun c hc => by
    rcases hmem c hc with h | h
    · exact pySpace_of_isDigit h
    · subst h; decide)
  have hvne : v ≠ "" := by
    intro h
    subst h
    exact absurd hr (by decide)
  have hno : containsSub "Rating:".data v.data = false :=
    containsSub_eq_false_of_not_mem (c := 'R') (by decide)
      (fun hm => by rcases hmem 'R' hm with h | h <;> exact absurd h (by decide))
  have hline : pyStrip ("Rating: " ++ v) = "Rating: " ++ v :=
    pyStrip_line "Rating: " v (by decide) (by decide) hv hvne
  have hval : pyStrip (pyRemoveAll "Rating:" ("Rating: " ++ v)) = v :=
    marker_line_value "Rating:".data v (by decide) rfl hno hv
  unfold bookStep
  dsimp only
  rw [hline]
  rw [if_neg (ne_true_of_false
    (show pyStartsWith "Title:" ("Rating: " ++ v) = false from rfl))]
  rw [if_neg (ne_true_of_false
    (show pyStartsWith "Author:" ("Rating: " ++ v) = false from rfl))]
  rw [if_neg (ne_true_of_false
    (show pyStartsWith "Year:" ("Rating: " ++ v) = false from rfl))]
  rw [if_pos (show pyStartsWith "Rating:" ("Rating: " ++ v) = true from rfl)]
  rw [hval, findDecimal_shaped hr]

/-- Structured-pass step on a `Reviews:` line whose value is a nonempty
literal digit string. -/
theorem bookStep_reviews (bs : List RawBook) (cb : RawBook) (v : String)
    (hne : v.data ≠ []) (hall : v.data.all Char.isDigit = true) :
    bookStep ⟨bs, some cb⟩ ("Reviews: " ++ v) =
      ⟨bs, some { cb with num_reviews := some (natOfDigits v.data) }⟩ := by
  have hv : pyStrip v = v := pyStrip_of_all_not_space
    (fun c hc => pySpace_of_isDigit (List.all_eq_true.mp hall c hc))
  have hvne : v ≠ "" := fun h => hne (congrArg String.data h)
  have hno : containsSub "Reviews:".data v.data = false :=
    containsSub_eq_false_of_not_mem (c := 'R') (by decide)
      (fun hm => absurd (List.all_eq_true.mp hall 'R' hm) (by decide))
  have hline : pyStrip ("Reviews: " ++ v) = "Reviews: " ++ v :=
    pyStrip_line "Reviews: " v (by decide) (by decide) hv hvne
  have hval : pyStrip (pyRemoveAll "Reviews:" ("Reviews: " ++ v)) = v :=
    marker_line_value "Reviews:".data v (by decide) rfl hno hv
  unfold bookStep
  dsimp only
  rw [hline]
  rw [if_neg (ne_true_of_false
    (show pyStartsWith "Title:" ("Reviews: " ++ v) = false from rfl))]
  rw [if_neg (ne_true_of_false
    (show pyStartsWith "Author:" ("Reviews: " ++ v) = false from rfl))]
  rw [if_neg (ne_true_of_false
    (show pyStartsWith "Year:" ("Reviews: " ++ v) = false from rfl))]
  rw [if_neg (ne_true_of_false
    (show pyStartsWith "Rating:" ("Reviews: " ++ v) = false from rfl))]
  rw [if_pos (show pyStartsWith "Reviews:" ("Reviews: " ++ v) = true from rfl)]
  rw [hval, filter_ne_comma_of_digits hall, findNat_all_digits hne hall]

/-- Structured-pass step on a `Why:` line while a dict is under
construction. -/
theorem bookStep_why (bs : List RawBook) (cb : RawBook) (v : String)
    (hv : pyStrip v = v) (hvne : v ≠ "")
    (hno : containsSub "Why:".data v.data = false) :
    bookStep ⟨bs, some cb⟩ ("Why: " ++ v) =
      ⟨bs, some { cb with reason := some v }⟩ := by
  have hline : pyStrip ("Why: " ++ v) = "Why: " ++ v :=
    pyStrip_line "Why: " v (by decide) (by decide) hv hvne
  have hval : pyStrip (pyRemoveAll "Why:" ("Why: " ++ v)) = v :=
    marker_line_value "Why:".data v (by decide) rfl hno hv
  unfold bookStep
  dsimp only
  rw [hline]
  rw [if_neg (ne_true_of_false
    (show pyStartsWith "Title:" ("Why: " ++ v) = false from rfl))]
  rw [if_neg (ne_true_of_false
    (show pyStartsWith "Author:" ("Why: " ++ v) = false from rfl))]
  rw [if_neg (ne_true_of_false
    (show pyStartsWith "Year:" ("Why: " ++ v) = false from rfl))]
  rw [if_neg (ne_true_of_false
    (show pyStartsWith "Rating:" ("Why: " ++ v) = false from rfl))]
  rw [if_neg (ne_true_of_false
    (show pyStartsWith "Reviews:" ("Why: " ++ v) = false from rfl))]
  rw [if_pos (show pyStartsWith "Why:" ("Why: " ++ v) = true from rfl)]
  rw [hval]

/-- Structured-pass step on the `---` separator line: a dict holding a
title is flushed to the finished list. -/
theorem bookStep_sep (bs : List RawBook) (cb : RawBook)
    (ht : cb.title.isSome = true) :
    bookStep ⟨bs, some cb⟩ "---" = ⟨bs ++ [cb], none⟩ := by
  unfold bookStep
  dsimp only
  rw [show pyStrip "---" = "---" from by decide]
  rw [if_neg (ne_true_of_false (show pyStartsWith "Title:" "---" = false from rfl))]
  rw [if_neg (ne_true_of_false (show pyStartsWith "Author:" "---" = false from rfl))]
  rw [if_neg (ne_true_of_false (show pyStartsWith "Year:" "---" = false from rfl))]
  rw [if_neg (ne_true_of_false (show pyStartsWith "Rating:" "---" = false from rfl))]
  rw [if_neg (ne_true_of_false (show pyStartsWith "Reviews:" "---" = false from rfl))]
  rw [if_neg (ne_true_of_false (show pyStartsWith "Why:" "---" = false from rfl))]
  rw [if_pos (show ("---" : String) = "---" from rfl)]
  rw [if_pos ht]

/-! ## General lemmas -/

theorem filter_ne_nil_iff_exists {α : Type} {p : α → Bool} {l : List α} :
    l.filter p ≠ [] ↔ ∃ a ∈ l, p a := by
  rw [Ne, List.filter_eq_nil_iff]
  push_neg
  simp

theorem dictGet_dictSet_self {α : Type} (d : List (String × α)) (k : String) (v : α) :
    dictGet (dictSet d k v) k = some v := by
  induction d with
  | nil => simp [dictGet, dictSet, List.find?]
  | cons p t ih =>
    unfold dictSet
    by_cases hp : p.1 == k
    · rw [if_pos hp]
      simp [dictGet, List.find?_cons]
    · rw [if_neg hp]
      unfold dictGet at ih ⊢
      rw [List.find?_cons]
      simp only [hp]
      exact ih

/-! ## Claim theorems -/

/-- C1: for every state with a (truthy) selected stage,
`decision_busqueda_libros` evaluates its rules strictly in the documented
order: (1) counter ≥ 3 → accept-current; (2) fewer than 2 books for the
stage → retry-general; (3) some knowledge gap mentions the stage name or
contains "need" (case-insensitively) while the counter is below 2 →
retry-specific; (4) otherwise sufficient. -/
theorem C1_decision_busqueda_order (s : GraphState) (stage : String)
    (hs : s.stage_being_processed = some stage) (hne : stage ≠ "") :
    decision_busqueda_libros s =
      if 3 ≤ s.book_search_iterations then "aceptar_libros_actuales"
      else if (booksFor s stage).length < 2 then "reintentar_busqueda"
      else if (∃ g ∈ s.knowledge_gaps, pyContains (pyLower g) (pyLower stage) ∨
          pyContains (pyLower g) "need") ∧ s.book_search_iterations < 2 then
        "busqueda_especifica"
      else "libros_suficientes" := by
  have hfilter : (s.knowledge_gaps.filter (fun g =>
      pyContains (pyLower g) (pyLower stage) || pyContains (pyLower g) "need") ≠ []) ↔
      (∃ g ∈ s.knowledge_gaps, pyContains (pyLower g) (pyLower stage) ∨
        pyContains (pyLower g) "need") := by
    rw [filter_ne_nil_iff_exists]
    simp [Bool.or_eq_true]
  unfold decision_busqueda_libros
  rw [hs]
  dsimp only
  rw [if_neg hne]
  simp only [MAX_BOOK_SEARCHES_PER_STAGE, MIN_BOOKS_PER_STAGE, ge_iff_le]
  by_cases h1 : 3 ≤ s.book_search_iterations
  · rw [if_pos h1, if_pos h1]
  · rw [if_neg h1, if_neg h1]
    by_cases h2 : (booksFor s stage).length < 2
    · rw [if_pos h2, if_pos h2]
    · rw [if_neg h2, if_neg h2]
      by_cases h3 : (∃ g ∈ s.knowledge_gaps, pyContains (pyLower g) (pyLower stage) ∨
          pyContains (pyLower g) "need") ∧ s.book_search_iterations < 2
      · rw [if_pos h3]
        rw [if_pos ⟨hfilter.mpr h3.1, by omega⟩]
      · rw [if_neg h3]
        rw [if_neg (by
          intro hc
          exact h3 ⟨hfilter.mp hc.1, by omega⟩)]

/-- Concrete state for the C1 witness: stage selected, counter at the
ceiling (3) and zero books for the stage. -/
def c1State : GraphState where
  topic := "T"
  user_level := "beginner"
  knowledge_gaps := []
  study_plan_structure := [("A", ⟨"", "4 weeks", [], []⟩)]
  books_by_stage := []
  book_candidates := []
  book_search_iterations := 3
  validation_iterations := 0
  plan_refinement_iterations := 0
  quality_threshold := 4
  stage_being_processed := some "A"
  all_stages_covered := false
  final_output := ""
  validation_feedback := []

/-- C1 witness: with counter = 3 and 0 books for the selected stage, the
decision is accept-current (the ceiling check precedes the book check). -/
theorem C1_witness : decision_busqueda_libros c1State = "aceptar_libros_actuales" := by
  rw [C1_decision_busqueda_order c1State "A" rfl (by decide)]
  rfl

/-- C3: for every state, `decision_validacion` returns force-output
whenever the validation counter is at least 5; otherwise it returns
replan exactly when the last 3 feedback entries contain a critical marker
(case-insensitively) with the refinement counter below 2, or some stage
of the plan holds fewer than 2 books with the refinement counter below 2;
otherwise format-output. -/
theorem C3_decision_validacion (s : GraphState) :
    decision_validacion s =
      if 5 ≤ s.validation_iterations then "forzar_salida"
      else if ((∃ fb ∈ lastN 3 s.validation_feedback, ∃ w ∈ criticalWords,
            pyContains (pyLower fb) w) ∧ s.plan_refinement_iterations < 2) ∨
          ((∃ p ∈ s.study_plan_structure, (booksFor s p.1).length < 2) ∧
            s.plan_refinement_iterations < 2) then "replantear"
      else "formatear" := by
  have hcrit : ((lastN 3 s.validation_feedback).any (fun fb =>
      criticalWords.any (fun word => pyContains (pyLower fb) word)) = true) ↔
      (∃ fb ∈ lastN 3 s.validation_feedback, ∃ w ∈ criticalWords,
        pyContains (pyLower fb) w) := by
    simp [List.any_eq_true]
  have hins : ((s.study_plan_structure.map Prod.fst).filter
      (fun stage_name => (booksFor s stage_name).length < MIN_BOOKS_PER_STAGE) ≠ []) ↔
      (∃ p ∈ s.study_plan_structure, (booksFor s p.1).length < 2) := by
    rw [filter_ne_nil_iff_exists]
    simp only [List.mem_map, MIN_BOOKS_PER_STAGE, decide_eq_true_eq]
    constructor
    · rintro ⟨a, ⟨p, hp, rfl⟩, ha⟩
      exact ⟨p, hp, ha⟩
    · rintro ⟨p, hp, hlt⟩
      exact ⟨p.1, ⟨p, hp, rfl⟩, hlt⟩
  unfold decision_validacion
  simp only [MAX_VALIDATION_CYCLES, MAX_PLAN_REFINEMENTS, ge_iff_le]
  by_cases h1 : 5 ≤ s.validation_iterations
  · rw [if_pos h1, if_pos h1]
  · rw [if_neg h1, if_neg h1]
    by_cases h2 : ((lastN 3 s.validation_feedback).any (fun fb =>
        criticalWords.any (fun word => pyContains (pyLower fb) word)) = true) ∧
        s.plan_refinement_iterations < 2
    · rw [if_pos h2, if_pos (Or.inl ⟨hcrit.mp h2.1, h2.2⟩)]
    · rw [if_neg h2]
      by_cases h3 : ((s.study_plan_structure.map Prod.fst).filter
          (fun stage_name => (booksFor s stage_name).length < MIN_BOOKS_PER_STAGE) ≠ []) ∧
          s.plan_refinement_iterations < 2
      · rw [if_pos h3, if_pos (Or.inr ⟨hins.mp h3.1, h3.2⟩)]
      · rw [if_neg h3, if_neg (by
          rintro (hc | hc)
          · exact h2 ⟨hcrit.mpr hc.1, hc.2⟩
          · exact h3 ⟨hins.mpr hc.1, hc.2⟩)]

/-- C4: for every state, the coverage decision returns next-stage and
clears `all_stages_covered` when some stage of the plan structure holds
fewer than 2 books; when every stage holds at least 2 books it returns
validate-globally and sets the flag. -/
theorem C4_decision_cobertura (s : GraphState) :
    ((∃ p ∈ s.study_plan_structure, (booksFor s p.1).length < 2) →
      decision_cobertura_etapas s =
        ("siguiente_etapa", { s with all_stages_covered := false })) ∧
    ((∀ p ∈ s.study_plan_structure, 2 ≤ (booksFor s p.1).length) →
      decision_cobertura_etapas s =
        ("validacion_global", { s with all_stages_covered := true })) := by
  have hiff : ((s.study_plan_structure.map Prod.fst).filter
      (fun stage_name => (booksFor s stage_name).length < MIN_BOOKS_PER_STAGE) ≠ []) ↔
      (∃ p ∈ s.study_plan_structure, (booksFor s p.1).length < 2) := by
    rw [filter_ne_nil_iff_exists]
    simp only [List.mem_map, MIN_BOOKS_PER_STAGE, decide_eq_true_eq]
    constructor
    · rintro ⟨a, ⟨p, hp, rfl⟩, ha⟩
      exact ⟨p, hp, ha⟩
    · rintro ⟨p, hp, hlt⟩
      exact ⟨p.1, ⟨p, hp, rfl⟩, hlt⟩
  constructor
  · intro hex
    unfold decision_cobertura_etapas
    rw [if_pos (hiff.mpr hex)]
  · intro hall
    unfold decision_cobertura_etapas
    rw [if_neg (by
      intro hc
      obtain ⟨p, hp, hlt⟩ := hiff.mp hc
      exact absurd (hall p hp) (by omega))]

/-- A sample finalized book record (score value irrelevant to the claims
that use it). -/
noncomputable def sampleBook : BookInfo :=
  { title := "B", author := "A", year := none, rating := 4, num_reviews := 100,
    reason := "r", score := 0 }

/-- Concrete state for the C4 witness: plan `{A, B}` with 2 books at `A`
and 1 book at `B`. -/
noncomputable def c4State : GraphState where
  topic := "T"
  user_level := "beginner"
  knowledge_gaps := []
  study_plan_structure := [("A", ⟨"", "4 weeks", [], []⟩), ("B", ⟨"", "4 weeks", [], []⟩)]
  books_by_stage := [("A", [sampleBook, sampleBook]), ("B", [sampleBook])]
  book_candidates := []
  book_search_iterations := 0
  validation_iterations := 0
  plan_refinement_iterations := 0
  quality_threshold := 4
  stage_being_processed := none
  all_stages_covered := true
  final_output := ""
  validation_feedback := []

/-- C4 witness: on plan `{A, B}` with books `{A: 2, B: 1}` the coverage
decision is next-stage and `all_stages_covered` becomes false. -/
theorem C4_witness :
    decision_cobertura_etapas c4State =
      ("siguiente_etapa", { c4State with all_stages_covered := false }) :=
  (C4_decision_cobertura c4State).1
    ⟨("B", ⟨"", "4 weeks", [], []⟩), by simp [c4State], by
      show (booksFor c4State "B").length < 2
      simp [booksFor, dictGet, c4State, List.find?, sampleBook]⟩

/-- The candidate list installed by a successful `investigador_libros`
run: title-less candidates dropped, the rest converted by `mkBookInfo`. -/
theorem investigador_candidates (s : GraphState) (stage : String) (books : List RawBook)
    (hs : s.stage_being_processed = some stage) (hne : stage ≠ "") :
    (investigador_libros s (some books)).book_candidates =
      dictSet s.book_candidates stage
        ((books.filter (fun b => b.title.getD "" != "")).map mkBookInfo) := by
  unfold investigador_libros
  rw [hs]
  dsimp only
  rw [if_neg hne]

/-- C5: every book record built by `investigador_libros` from a parsed
candidate stores `score = rating * ln(max(num_reviews, 1) + 1)`, and the
score is non-negative whenever the rating is. -/
theorem C5_score_formula (s : GraphState) (stage : String) (books : List RawBook)
    (hs : s.stage_being_processed = some stage) (hne : stage ≠ "") (b : BookInfo)
    (hb : b ∈ (dictGet (investigador_libros s (some books)).book_candidates stage).getD []) :
    b.score = (b.rating : ℝ) * Real.log ((max b.num_reviews 1 : ℕ) + 1) ∧
      (0 ≤ b.rating → 0 ≤ b.score) := by
  rw [investigador_candidates s stage books hs hne, dictGet_dictSet_self,
    Option.getD_some] at hb
  obtain ⟨rb, _, rfl⟩ := List.mem_map.mp hb
  refine ⟨rfl, fun hr => ?_⟩
  show (0 : ℝ) ≤ scoreOf (rb.rating.getD 0) (rb.num_reviews.getD 1)
  unfold scoreOf
  apply mul_nonneg
  · exact_mod_cast hr
  · apply Real.log_nonneg
    have hle := (Nat.cast_le (α := ℝ)).mpr (Nat.le_max_right (rb.num_reviews.getD 1) 1)
    push_cast at hle ⊢
    linarith

/-- Candidate dict for the C5 witness. -/
def c5Book : RawBook := { title := some "B", rating := some 4, num_reviews := some 100 }

/-- C5 witness: a candidate with rating 4 and 100 reviews yields a
non-negative stored score. -/
theorem C5_witness : (0 : ℚ) ≤ 4 ∧ 0 ≤ (mkBookInfo c5Book).score := by
  refine ⟨by norm_num, ?_⟩
  have h := C5_score_formula c1State "A" [c5Book] rfl (by decide) (mkBookInfo c5Book)
    (by
      rw [investigador_candidates c1State "A" [c5Book] rfl (by decide),
        dictGet_dictSet_self, Option.getD_some]
      simp [c5Book])
  exact h.2 (by norm_num [mkBookInfo, c5Book])

/-- C6: the quality filter keeps exactly the candidates whose rating
meets the threshold; when fewer than 2 survive and the threshold exceeds
3.5 it refilters the full candidate set exactly once at threshold − 0.3
(the result is that single relaxed filter, whatever its size — no second
relaxation); and the relaxed survivor set contains the initial one. -/
theorem C6_quality_filter (candidates : List BookInfo) (threshold : ℚ) :
    (∀ b : BookInfo, b ∈ candidates.filter (fun b => validate_book_quality b threshold) ↔
        b ∈ candidates ∧ threshold ≤ b.rating) ∧
    ((candidates.filter (fun b => validate_book_quality b threshold)).length < 2 ∧
        (3.5 : ℚ) < threshold →
      filtrar_calidad candidates threshold =
        candidates.filter (fun b => validate_book_quality b (threshold - 0.3))) ∧
    (¬((candidates.filter (fun b => validate_book_quality b threshold)).length < 2 ∧
        (3.5 : ℚ) < threshold) →
      filtrar_calidad candidates threshold =
        candidates.filter (fun b => validate_book_quality b threshold)) ∧
    (candidates.filter (fun b => validate_book_quality b threshold) ⊆
      candidates.filter (fun b => validate_book_quality b (threshold - 0.3))) := by
  refine ⟨?_, ?_, ?_, ?_⟩
  · intro b
    rw [List.mem_filter]
    unfold validate_book_quality
    simp
  · intro h
    unfold filtrar_calidad
    rw [if_pos (by simpa [MIN_BOOKS_PER_STAGE] using h)]
  · intro h
    unfold filtrar_calidad
    rw [if_neg (by simpa [MIN_BOOKS_PER_STAGE] using h)]
  · intro b hb
    rw [List.mem_filter] at hb ⊢
    refine ⟨hb.1, ?_⟩
    have h2 : threshold ≤ b.rating := by
      have := hb.2
      unfold validate_book_quality at this
      simpa using this
    unfold validate_book_quality
    simp only [decide_eq_true_eq]
    linarith

/-- C6 witness: one candidate of rating 4 against threshold 4 leaves a
single survivor, so the relaxed refilter at 3.7 is applied. -/
theorem C6_witness :
    filtrar_calidad [sampleBook] 4 =
      [sampleBook].filter (fun b => validate_book_quality b (4 - 0.3)) := by
  apply (C6_quality_filter [sampleBook] 4).2.1
  constructor
  · have : validate_book_quality sampleBook 4 = true := by
      unfold validate_book_quality sampleBook
      norm_num
    simp [this]
  · norm_num

/-- C7: with a stage selected, `detector_gaps` appends exactly one
descriptive gap string for each condition that holds on the stage's
finalized books — fewer than 2 books, some rating below 3.8, more than
half of the books below 50 reviews — and leaves the list unchanged when
none holds; the existing entries stay as an unmodified prefix. -/
theorem C7_detector_gaps (s : GraphState) (stage : String)
    (hs : s.stage_being_processed = some stage) (hne : stage ≠ "") :
    (detector_gaps s).knowledge_gaps =
      s.knowledge_gaps ++
        ((if (booksFor s stage).length < 2 then
            [gapMsgInsufficient stage (booksFor s stage).length] else []) ++
         (if ∃ b ∈ booksFor s stage, b.rating < 3.8 then [gapMsgLowRated stage] else []) ++
         (if (booksFor s stage).length <
              2 * ((booksFor s stage).filter (fun b => b.num_reviews < 50)).length then
            [gapMsgLowReviews stage] else [])) := by
  have e2 : ((booksFor s stage).filter (fun b => decide (b.rating < 3.8))).isEmpty = false ↔
      (∃ b ∈ booksFor s stage, b.rating < 3.8) := by
    rw [List.isEmpty_eq_false_iff_exists_mem]
    constructor
    · rintro ⟨b, hb⟩
      rw [List.mem_filter] at hb
      exact ⟨b, hb.1, by simpa using hb.2⟩
    · rintro ⟨b, hb, hlt⟩
      exact ⟨b, List.mem_filter.mpr ⟨hb, by simpa using hlt⟩⟩
  have e3 : (((booksFor s stage).filter (fun b => b.num_reviews < 50)).length >
      (booksFor s stage).length / 2) ↔
      ((booksFor s stage).length <
        2 * ((booksFor s stage).filter (fun b => b.num_reviews < 50)).length) := by
    rw [gt_iff_lt, Nat.div_lt_iff_lt_mul (by norm_num)]
    omega
  have hD2 : (if ((booksFor s stage).filter (fun b => decide (b.rating < 3.8))).isEmpty then
        ([] : List String) else [gapMsgLowRated stage]) =
      (if ∃ b ∈ booksFor s stage, b.rating < 3.8 then [gapMsgLowRated stage] else []) := by
    by_cases h2 : ∃ b ∈ booksFor s stage, b.rating < 3.8
    · rw [if_pos h2, if_neg (by simp [e2.mpr h2])]
    · have ht : ((booksFor s stage).filter (fun b => decide (b.rating < 3.8))).isEmpty = true := by
        cases hbool : ((booksFor s stage).filter (fun b => decide (b.rating < 3.8))).isEmpty with
        | false => exact absurd (e2.mp hbool) h2
        | true => rfl
      rw [if_neg h2, if_pos (by simp [ht])]
  have hD3 : (if ((booksFor s stage).filter (fun b => decide (b.num_reviews < 50))).length >
        (booksFor s stage).length / 2 then [gapMsgLowReviews stage] else ([] : List String)) =
      (if (booksFor s stage).length <
          2 * ((booksFor s stage).filter (fun b => b.num_reviews < 50)).length then
        [gapMsgLowReviews stage] else []) := by
    by_cases h3 : (booksFor s stage).length <
        2 * ((booksFor s stage).filter (fun b => b.num_reviews < 50)).length
    · rw [if_pos h3, if_pos (e3.mpr h3)]
    · rw [if_neg h3, if_neg (fun hc => h3 (e3.mp hc))]
  unfold detector_gaps
  rw [hs]
  dsimp only
  rw [if_neg hne]
  simp only [MIN_BOOKS_PER_STAGE]
  rw [hD2, hD3]
  by_cases hng : ((if (booksFor s stage).length < 2 then
        [gapMsgInsufficient stage (booksFor s stage).length] else []) ++
      (if ∃ b ∈ booksFor s stage, b.rating < 3.8 then [gapMsgLowRated stage] else []) ++
      (if (booksFor s stage).length <
          2 * ((booksFor s stage).filter (fun b => b.num_reviews < 50)).length then
        [gapMsgLowReviews stage] else [])) = []
  · rw [if_neg (by simp [hng]), hng, List.append_nil]
  · rw [if_pos hng]

/-- Concrete state for the C7 witness: stage `A` selected with one good
book and one pre-existing gap entry. -/
noncomputable def c7State : GraphState :=
  { c1State with knowledge_gaps := ["g0"], books_by_stage := [("A", [sampleBook])] }

/-- C7 witness: one book (rating 4, 100 reviews) for the selected stage
triggers only the insufficient-books gap. -/
theorem C7_witness :
    (detector_gaps c7State).knowledge_gaps = ["g0", gapMsgInsufficient "A" 1] := by
  have hb : booksFor c7State "A" = [sampleBook] := by
    simp [booksFor, dictGet, c7State, c1State, List.find?]
  rw [C7_detector_gaps c7State "A" rfl (by decide), hb]
  rw [if_pos (by norm_num)]
  rw [if_neg (by
    rintro ⟨b, hbm, hlt⟩
    rw [List.mem_singleton] at hbm
    subst hbm
    norm_num [sampleBook] at hlt)]
  rw [if_neg (by simp [sampleBook])]
  rfl

/-- No iteration counter of `s` that was nonzero has been zeroed in the
successor state `t`. -/
def countersNotZeroed (s t : GraphState) : Prop :=
  (t.book_search_iterations = 0 → s.book_search_iterations = 0) ∧
  (t.validation_iterations = 0 → s.validation_iterations = 0) ∧
  (t.plan_refinement_iterations = 0 → s.plan_refinement_iterations = 0)

/-- C2: `selector_etapa` zeroes the book-search counter exactly when the
stage it selects differs from the previously selected one — selecting the
same stage keeps the counter, selecting no stage keeps the counter, and
the other two counters are never touched; no other node of the workflow
ever zeroes a counter that was nonzero. -/
theorem C2_counter_reset (s : GraphState) (rT rV rR : Option String)
    (rP : Option (List String)) (rB : Option (List RawBook)) :
    (∀ stage : String, (selector_etapa s).stage_being_processed = some stage →
      (s.stage_being_processed ≠ some stage →
        (selector_etapa s).book_search_iterations = 0) ∧
      (s.stage_being_processed = some stage →
        (selector_etapa s).book_search_iterations = s.book_search_iterations)) ∧
    ((selector_etapa s).stage_being_processed = none →
      (selector_etapa s).book_search_iterations = s.book_search_iterations) ∧
    (selector_etapa s).validation_iterations = s.validation_iterations ∧
    (selector_etapa s).plan_refinement_iterations = s.plan_refinement_iterations ∧
    countersNotZeroed s (analizador_tema s rT) ∧
    countersNotZeroed s (evaluador_nivel s) ∧
    countersNotZeroed s (estructurador_plan s rP) ∧
    countersNotZeroed s (replanificador s rR) ∧
    countersNotZeroed s (investigador_libros s rB) ∧
    countersNotZeroed s (validador_calidad s) ∧
    countersNotZeroed s (detector_gaps s) ∧
    countersNotZeroed s (validador_global s rV) ∧
    countersNotZeroed s (decision_cobertura_etapas s).2 ∧
    countersNotZeroed s (formateador_salida s) ∧
    countersNotZeroed s (salida_forzada s) := by
  refine ⟨?_, ?_, ?_, ?_, ?_, ?_, ?_, ?_, ?_, ?_, ?_, ?_, ?_, ?_, ?_⟩
  · intro stage hst
    unfold selector_etapa at hst ⊢
    cases hfind : (s.study_plan_structure.map Prod.fst).find? (fun stage_name =>
        match dictGet s.books_by_stage stage_name with
        | none => true
        | some books => decide (books.length < 2)) with
    | none => rw [hfind] at hst; simp at hst
    | some found =>
      rw [hfind] at hst
      dsimp only at hst ⊢
      have hfs : found = stage := by simpa using hst
      subst hfs
      constructor
      · intro hdiff
        rw [if_pos (by simpa [ne_comm] using hdiff)]
      · intro hsame
        rw [if_neg (by simp [hsame])]
  · intro hnone
    unfold selector_etapa at hnone ⊢
    cases hfind : (s.study_plan_structure.map Prod.fst).find? (fun stage_name =>
        match dictGet s.books_by_stage stage_name with
        | none => true
        | some books => decide (books.length < 2)) with
    | none => rfl
    | some found =>
      rw [hfind] at hnone
      simp at hnone
  · unfold selector_etapa
    cases hfind : (s.study_plan_structure.map Prod.fst).find? (fun stage_name =>
        match dictGet s.books_by_stage stage_name with
        | none => true
        | some books => decide (books.length < 2)) with
    | none => rfl
    | some found =>
      dsimp only
      by_cases hd : some found ≠ s.stage_being_processed
      · rw [if_pos hd]
      · rw [if_neg hd]
  · unfold selector_etapa
    cases hfind : (s.study_plan_structure.map Prod.fst).find? (fun stage_name =>
        match dictGet s.books_by_stage stage_name with
        | none => true
        | some books => decide (books.length < 2)) with
    | none => rfl
    | some found =>
      dsimp only
      by_cases hd : some found ≠ s.stage_being_processed
      · rw [if_pos hd]
      · rw [if_neg hd]
  · cases rT <;> simp [analizador_tema, countersNotZeroed]
  · unfold evaluador_nivel
    dsimp only
    by_cases h1 : (if s.user_level = "" ∨ s.user_level ∉ ["beginner", "intermediate",
        "advanced"] then "beginner" else s.user_level) = "beginner"
    · rw [if_pos h1]
      exact ⟨fun h => h, fun h => h, fun h => h⟩
    · rw [if_neg h1]
      by_cases h2 : (if s.user_level = "" ∨ s.user_level ∉ ["beginner", "intermediate",
          "advanced"] then "beginner" else s.user_level) = "intermediate"
      · rw [if_pos h2]
        exact ⟨fun h => h, fun h => h, fun h => h⟩
      · rw [if_neg h2]
        exact ⟨fun h => h, fun h => h, fun h => h⟩
  · cases rP <;> simp [estructurador_plan, countersNotZeroed]
  · cases rR <;> simp [replanificador, countersNotZeroed]
  · unfold investigador_libros
    cases hst : s.stage_being_processed with
    | none => simp [countersNotZeroed]
    | some stage =>
      by_cases hne : stage = ""
      · simp [hne, countersNotZeroed]
      · cases rB <;> simp [hne, countersNotZeroed]
  · unfold validador_calidad
    cases hst : s.stage_being_processed with
    | none => simp [countersNotZeroed]
    | some stage =>
      by_cases hne : stage = ""
      · simp [hne, countersNotZeroed]
      · simp [hne, countersNotZeroed]
  · unfold detector_gaps
    cases hst : s.stage_being_processed with
    | none => simp [countersNotZeroed]
    | some stage =>
      by_cases hne : stage = ""
      · simp [hne, countersNotZeroed]
      · dsimp only
        rw [if_neg hne]
        by_cases hng : ((if (booksFor s stage).length < MIN_BOOKS_PER_STAGE then
            [gapMsgInsufficient stage (booksFor s stage).length] else []) ++
          (if ((booksFor s stage).filter (fun b => decide (b.rating < 3.8))).isEmpty then []
            else [gapMsgLowRated stage]) ++
          (if ((booksFor s stage).filter (fun b => decide (b.num_reviews < 50))).length >
              (booksFor s stage).length / 2 then [gapMsgLowReviews stage] else [])) = []
        · rw [if_neg (fun hc => hc hng)]
          exact ⟨fun h => h, fun h => h, fun h => h⟩
        · rw [if_pos hng]
          exact ⟨fun h => h, fun h => h, fun h => h⟩
  · cases rV <;> simp [validador_global, countersNotZeroed]
  · unfold decision_cobertura_etapas
    by_cases hu : ((s.study_plan_structure.map Prod.fst).filter
        (fun stage_name => decide ((booksFor s stage_name).length < MIN_BOOKS_PER_STAGE))) ≠ []
    · rw [if_pos hu]
      exact ⟨fun h => h, fun h => h, fun h => h⟩
    · rw [if_neg hu]
      exact ⟨fun h => h, fun h => h, fun h => h⟩
  · simp [formateador_salida, countersNotZeroed]
  · simp [salida_forzada, formateador_salida, countersNotZeroed]

/-- Concrete state for the C2 witness with stage `A` uncovered and no
previously selected stage. -/
def c2StateNew : GraphState := { c1State with stage_being_processed := none }

/-- Concrete state for the C2 witness with stage `A` uncovered, already
selected, and a nonzero counter. -/
def c2StateSame : GraphState :=
  { c1State with stage_being_processed := some "A", book_search_iterations := 2 }

/-- C2 witness: selecting `A` after no stage was selected resets the
counter to 0, while re-selecting `A` keeps the counter at 2; a
counter-incrementing node never zeroes a nonzero counter. -/
theorem C2_witness :
    (selector_etapa c2StateNew).book_search_iterations = 0 ∧
    (selector_etapa c2StateSame).book_search_iterations = 2 ∧
    (detector_gaps c2StateSame).book_search_iterations = 2 := by
  refine ⟨?_, ?_, ?_⟩
  · have h := (C2_counter_reset c2StateNew none none none none none).1 "A"
      (by decide) |>.1 (by decide)
    exact h
  · have h := (C2_counter_reset c2StateSame none none none none none).1 "A"
      (by decide) |>.2 (by decide)
    exact h
  · have h := (C2_counter_reset c2StateSame none none none none none).2.2.2.2.2.2.2.2.2.2.1
    rcases Nat.eq_zero_or_pos ((detector_gaps c2StateSame).book_search_iterations) with h0 | hp
    · have := h.1 h0
      simp [c2StateSame, c1State] at this
    · have : (detector_gaps c2StateSame).book_search_iterations =
          c2StateSame.book_search_iterations := by
        unfold detector_gaps
        rfl
      simpa [c2StateSame, c1State] using this

/-- Two string appends with a common right part differ when the left
parts have different lengths. -/
theorem append_ne_append_left_of_length {a b : String} (t : String)
    (h : a.length ≠ b.length) : a ++ t ≠ b ++ t := by
  intro he
  apply h
  have hl := congrArg String.length he
  rwa [String.length_append, String.length_append, Nat.add_right_cancel_iff] at hl

/-- Concrete state for the C8 counterexample, with the refinement counter
already at 2. -/
def c8State : GraphState := { c1State with plan_refinement_iterations := 2 }

/-- C8 counterexample: when the collaborator call raises with the
refinement counter at 2, `estructurador_plan` sets the counter to 1
rather than incrementing it to 3 — so the claim that the node increments
the counter on every run is false. -/
theorem C8_counterexample :
    (estructurador_plan c8State none).plan_refinement_iterations ≠
      c8State.plan_refinement_iterations + 1 := by decide

/-- C8 (amended): `estructurador_plan` increments the plan-refinement
counter on every run in which the collaborator call returns (including
total parse failure), while a collaborator error sets the counter to 1
(an increment from its initial value 0, the only value it can hold when
the node runs in the graph); in both failure modes — collaborator error
or no parseable stage in the response — the node installs the fixed
default plan, which holds exactly 3 distinct stages for a beginner level
and exactly 2 otherwise, and the node is a total function (no error
reaches the executor). -/
theorem C8_estructurador_plan (s : GraphState) (lines : List String) :
    ((estructurador_plan s (some lines)).plan_refinement_iterations =
      s.plan_refinement_iterations + 1) ∧
    ((estructurador_plan s none).plan_refinement_iterations = 1) ∧
    (parse_stages_raw lines = [] →
      (estructurador_plan s (some lines)).study_plan_structure =
        create_default_stages s.topic s.user_level) ∧
    ((estructurador_plan s none).study_plan_structure =
      create_default_stages s.topic s.user_level) ∧
    ((create_default_stages s.topic "beginner").length = 3 ∧
      ((create_default_stages s.topic "beginner").map Prod.fst).Nodup) ∧
    (s.user_level ≠ "beginner" →
      (create_default_stages s.topic s.user_level).length = 2 ∧
        ((create_default_stages s.topic s.user_level).map Prod.fst).Nodup) := by
  refine ⟨rfl, rfl, ?_, rfl, ?_, ?_⟩
  · intro hraw
    show parse_stages_from_lines lines s.topic s.user_level = _
    unfold parse_stages_from_lines
    rw [hraw, if_pos rfl]
  · refine ⟨by simp [create_default_stages], ?_⟩
    simp only [create_default_stages, if_pos rfl, List.map_cons, List.map_nil]
    refine List.nodup_cons.mpr ⟨?_, List.nodup_cons.mpr ⟨?_, List.nodup_cons.mpr
      ⟨List.not_mem_nil _, List.nodup_nil⟩⟩⟩
    · intro hmem
      rcases List.mem_cons.mp hmem with h | h
      · exact append_ne_append_left_of_length s.topic (by decide) h
      · rcases List.mem_cons.mp h with h' | h'
        · exact append_ne_append_left_of_length s.topic (by decide) h'
        · exact List.not_mem_nil _ h'
    · intro hmem
      rcases List.mem_cons.mp hmem with h | h
      · exact append_ne_append_left_of_length s.topic (by decide) h
      · exact List.not_mem_nil _ h
  · intro hlvl
    refine ⟨?_, ?_⟩
    · simp [create_default_stages, hlvl]
    · simp only [create_default_stages, if_neg hlvl, List.map_cons, List.map_nil]
      refine List.nodup_cons.mpr ⟨?_, List.nodup_cons.mpr
        ⟨List.not_mem_nil _, List.nodup_nil⟩⟩
      intro hmem
      rcases List.mem_cons.mp hmem with h | h
      · exact append_ne_append_left_of_length s.topic (by decide) h
      · exact List.not_mem_nil _ h

/-- C8 witness: for a beginner state, a response with no parseable stage
header installs the 3-stage default plan with the counter incremented,
and a collaborator error installs it with the counter set to 1. -/
theorem C8_witness :
    (estructurador_plan c1State (some ["hello world"])).study_plan_structure =
      create_default_stages "T" "beginner" ∧
    (estructurador_plan c1State (some ["hello world"])).plan_refinement_iterations = 1 ∧
    (estructurador_plan c1State none).plan_refinement_iterations = 1 ∧
    (create_default_stages "T" "beginner").length = 3 := by
  have h := C8_estructurador_plan c1State ["hello world"]
  refine ⟨h.2.2.1 (by decide), h.1, h.2.1, ?_⟩
  have h3 := h.2.2.2.2.1.1
  simpa using h3

/-- C10: no node of the workflow writes `quality_threshold`: the stored
threshold after any node run — in particular after `validador_calidad`,
whose relaxation is purely local to the filtering comparison — equals the
stored threshold before it. -/
theorem C10_threshold_frame (s : GraphState) (rT rV rR : Option String)
    (rP : Option (List String)) (rB : Option (List RawBook)) :
    (validador_calidad s).quality_threshold = s.quality_threshold ∧
    (analizador_tema s rT).quality_threshold = s.quality_threshold ∧
    (evaluador_nivel s).quality_threshold = s.quality_threshold ∧
    (estructurador_plan s rP).quality_threshold = s.quality_threshold ∧
    (selector_etapa s).quality_threshold = s.quality_threshold ∧
    (replanificador s rR).quality_threshold = s.quality_threshold ∧
    (investigador_libros s rB).quality_threshold = s.quality_threshold ∧
    (detector_gaps s).quality_threshold = s.quality_threshold ∧
    (validador_global s rV).quality_threshold = s.quality_threshold ∧
    ((decision_cobertura_etapas s).2).quality_threshold = s.quality_threshold ∧
    (formateador_salida s).quality_threshold = s.quality_threshold ∧
    (salida_forzada s).quality_threshold = s.quality_threshold := by
  refine ⟨?_, ?_, ?_, ?_, ?_, ?_, ?_, ?_, ?_, ?_, ?_, ?_⟩
  · unfold validador_calidad
    cases s.stage_being_processed with
    | none => rfl
    | some stage =>
      by_cases hne : stage = ""
      · simp [hne]
      · simp [hne]
  · cases rT <;> simp [analizador_tema]
  · unfold evaluador_nivel
    dsimp only
    by_cases h1 : (if s.user_level = "" ∨ s.user_level ∉ ["beginner", "intermediate",
        "advanced"] then "beginner" else s.user_level) = "beginner"
    · rw [if_pos h1]
    · rw [if_neg h1]
      by_cases h2 : (if s.user_level = "" ∨ s.user_level ∉ ["beginner", "intermediate",
          "advanced"] then "beginner" else s.user_level) = "intermediate"
      · rw [if_pos h2]
      · rw [if_neg h2]
  · cases rP <;> simp [estructurador_plan]
  · unfold selector_etapa
    cases hfind : (s.study_plan_structure.map Prod.fst).find? (fun stage_name =>
        match dictGet s.books_by_stage stage_name with
        | none => true
        | some books => decide (books.length < 2)) with
    | none => rfl
    | some found =>
      dsimp only
      by_cases hd : some found ≠ s.stage_being_processed
      · rw [if_pos hd]
      · rw [if_neg hd]
  · cases rR <;> simp [replanificador]
  · unfold investigador_libros
    cases s.stage_being_processed with
    | none => rfl
    | some stage =>
      by_cases hne : stage = ""
      · simp [hne]
      · cases rB <;> simp [hne]
  · unfold detector_gaps
    cases s.stage_being_processed with
    | none => rfl
    | some stage =>
      by_cases hne : stage = ""
      · simp [hne]
      · dsimp only
        rw [if_neg hne]
        by_cases hng : ((if (booksFor s stage).length < MIN_BOOKS_PER_STAGE then
            [gapMsgInsufficient stage (booksFor s stage).length] else []) ++
          (if ((booksFor s stage).filter (fun b => decide (b.rating < 3.8))).isEmpty then []
            else [gapMsgLowRated stage]) ++
          (if ((booksFor s stage).filter (fun b => decide (b.num_reviews < 50))).length >
              (booksFor s stage).length / 2 then [gapMsgLowReviews stage] else [])) = []
        · rw [if_neg (fun hc => hc hng)]
        · rw [if_pos hng]
  · cases rV <;> simp [validador_global]
  · unfold decision_cobertura_etapas
    by_cases hu : ((s.study_plan_structure.map Prod.fst).filter
        (fun stage_name => decide ((booksFor s stage_name).length < MIN_BOOKS_PER_STAGE))) ≠ []
    · rw [if_pos hu]
    · rw [if_neg hu]
  · rfl
  · rfl

/-- C9: a synthetically generated block in the exact field-marker format
(`Title:`/`Author:`/`Year:`/`Rating:`/`Reviews:`/`Why:` lines followed by
the `---` separator), with well-formed field values (strip-invariant
nonempty title, author and reason not containing their own marker, a
four-digit year, a decimal-numeral rating, a digit-string review count),
parses to exactly one record whose title, author, year, rating, review
count and reason all match the values written into the block. -/
theorem C9_parse_roundtrip (title author year rating reviews why : String)
    (ht1 : pyStrip title = title) (ht2 : title ≠ "")
    (ht3 : containsSub "Title:".data title.data = false)
    (ha1 : pyStrip author = author) (ha2 : author ≠ "")
    (ha3 : containsSub "Author:".data author.data = false)
    (hy : isYearShaped year.data = true)
    (hr : isDecimalShaped rating.data = true)
    (hn1 : reviews.data ≠ []) (hn2 : reviews.data.all Char.isDigit = true)
    (hw1 : pyStrip why = why) (hw2 : why ≠ "")
    (hw3 : containsSub "Why:".data why.data = false) :
    parse_books_from_lines
      ["Title: " ++ title, "Author: " ++ author, "Year: " ++ year,
        "Rating: " ++ rating, "Reviews: " ++ reviews, "Why: " ++ why, "---"] =
      [{ title := some title, author := some author, year := some (some year),
         rating := some (decOfDigits rating.data),
         num_reviews := some (natOfDigits reviews.data),
         reason := some why }] := by
  unfold parse_books_from_lines
  dsimp only
  rw [List.foldl_cons, bookStep_title [] title ht1 ht2 ht3]
  rw [List.foldl_cons, bookStep_author _ _ author ha1 ha2 ha3]
  rw [List.foldl_cons, bookStep_year _ _ year hy]
  rw [List.foldl_cons, bookStep_rating _ _ rating hr]
  rw [List.foldl_cons, bookStep_reviews _ _ reviews hn1 hn2]
  rw [List.foldl_cons, bookStep_why _ _ why hw1 hw2 hw3]
  rw [List.foldl_cons, bookStep_sep, List.foldl_nil]
  all_goals rfl

/-- C9 witness: the concrete block for one book round-trips to the single
record holding exactly its field values. -/
theorem C9_witness :
    parse_books_from_lines
      ["Title: Clean Code", "Author: Robert Martin", "Year: 2008",
        "Rating: 4.7", "Reviews: 1200", "Why: A practical handbook", "---"] =
      [{ title := some "Clean Code", author := some "Robert Martin",
         year := some (some "2008"), rating := some (decOfDigits "4.7".data),
         num_reviews := some 1200, reason := some "A practical handbook" }] := by
  have h := C9_parse_roundtrip "Clean Code" "Robert Martin" "2008" "4.7" "1200"
    "A practical handbook" (by decide) (by decide) (by decide) (by decide)
    (by decide) (by decide) (by decide) (by decide) (by decide) (by decide)
    (by decide) (by decide) (by decide)
  exact h
